import Mathlib

/-!
Verification of the crawlytics log-ingestion pipeline

A shallow embedding, in Lean 4, of the core of the crawlytics repository:
crawler-pattern classification (`backend/parser/crawler_detection.py`,
`backend/parser/llm_list.py`), the Apache/Nginx line parsers
(`backend/parser/parser_base.py`, `backend/parser/log_parsers.py`), the
chunked processor (`backend/parser/processor.py`), the background task
runner (`backend/processor/log_task.py`), and the batch persistence writer
(`backend/database/writer.py`, `backend/database/__init__.py`).

Modelling conventions:
* Python strings are `List Char` (abbreviated `Str`); `str.lower()` is
  modelled on the ASCII range, which covers every pattern and log field the
  code compares.
* Fallible Python code returns `Option`; a Python exception that escapes a
  function is modelled by the `PyResult` error constructor carrying the
  message.
* Machine arithmetic: Python integers are unbounded, so `Nat`/`Int`/`Rat`
  are used directly.  The two places where CPython performs *float*
  arithmetic (`int(int(us)/1000)` and `int(float(s)*1000)` in
  `log_parsers.py`) are modelled exactly where the float computation
  agrees with exact arithmetic; this is noted at the definitions.
-/

set_option maxHeartbeats 1000000

namespace Crawlytics

/-- Python strings, modelled as lists of characters. -/
abbrev Str := List Char

/-- Coerce a Lean string literal to the `Str` model. -/
def str (s : String) : Str := s.data

/-- ASCII lowercasing of one character: models `str.lower()` on the ASCII
range (all crawler patterns and all compared log fields are ASCII). -/
def lowerChar (c : Char) : Char :=
  if ('A' ≤ c ∧ c ≤ 'Z') then Char.ofNat (c.toNat + 32) else c

/-- `s.lower()` on the ASCII range. -/
def lowerStr (s : Str) : Str := s.map lowerChar

/-- Python's `pat in s` substring test. -/
def containsSub (pat : Str) : Str → Bool
  | [] => pat.isEmpty
  | c :: rest => pat.isPrefixOf (c :: rest) || containsSub pat rest

/-!
`backend/parser/llm_list.py` — the pattern list wired into the pipeline

`LLM_CRAWLER_PATTERNS` is the list that the module-level functions
`is_llm_crawler` / `extract_crawler_name` of `crawler_detection.py` pull
in ("to ensure we only detect these specific patterns").
-/

/-- The literal pattern list of `llm_list.py`. -/
def LLM_CRAWLER_PATTERNS : List Str :=
  (["GPTBot", "ChatGPT-User", "OAI-SearchBot",
    "ClaudeBot", "Claude-Web", "Anthropic-AI", "Anthropic-AI-Crawler",
    "googlebot", "Google-Extended", "Google-CloudVertexBot",
    "MetaGPT", "LLaMA-Bot", "Meta AI", "Meta-ExternalAgent",
    "Meta-ExternalFetcher", "Facebookbot",
    "Cohere-AI", "CohereBot", "cohere-ai", "cohere-training-data-crawler",
    "PerplexityBot",
    "Applebot-Extended",
    "Amazonbot",
    "Bytespider",
    "CCBot",
    "AI2Bot", "AI2Bot-Dolma",
    "DuckAssistBot", "Diffbot", "Omgili", "Omgilibot", "webzio-extended",
    "Youbot", "SemrushBot-OCOB", "Petalbot", "PanguBot", "Kangaroo Bot",
    "Sentibot", "img2dataset", "Meltwater", "Seekr", "peer39_crawler",
    "Scrapy"]).map str

/-!
`backend/parser/crawler_detection.py` — module-level functions

These are the functions actually imported by `log_parsers.py`
(`extract_crawler_name`) and `processor.py` (`is_llm_crawler`).  Both work
only by case-insensitive exact match followed by case-insensitive
substring match against `LLM_CRAWLER_PATTERNS`.  (The `try/except` around
the loops is dead: the loops cannot raise; its fallback repeats the same
substring loop.)
-/

/-- `crawler_detection.is_llm_crawler` (module level, lines 255-282). -/
def is_llm_crawler (ua : Str) : Bool :=
  if ua.isEmpty then false
  else
    let ual := lowerStr ua
    (LLM_CRAWLER_PATTERNS.any (fun p => lowerStr p == ual)) ||
    (LLM_CRAWLER_PATTERNS.any (fun p => containsSub (lowerStr p) ual))

/-- First pattern with a case-insensitive exact match. -/
def findExactIn (pats : List Str) (ua : Str) : Option Str :=
  pats.find? (fun p => lowerStr p == lowerStr ua)

/-- First pattern occurring case-insensitively as a substring. -/
def findSubIn (pats : List Str) (ua : Str) : Option Str :=
  pats.find? (fun p => containsSub (lowerStr p) (lowerStr ua))

/-- `crawler_detection.extract_crawler_name` (module level, lines 284-311):
first pattern with a case-insensitive exact match, else first pattern
occurring case-insensitively as a substring, else `None`. -/
def extract_crawler_name (ua : Str) : Option Str :=
  if ua.isEmpty then none
  else
    match findExactIn LLM_CRAWLER_PATTERNS ua with
    | some p => some p
    | none => findSubIn LLM_CRAWLER_PATTERNS ua

/-!
Shared lemmas about the two module-level functions
-/

theorem isSome_find?_eq_any (p : α → Bool) (l : List α) :
    (l.find? p).isSome = l.any p := by
  induction l with
  | nil => rfl
  | cons a t ih =>
    cases h : p a with
    | true => simp [List.find?, h]
    | false => simp [List.find?, h, ih]

/-- The filtering decision and the naming decision of the module-level
functions coincide: `is_llm_crawler ua` holds exactly when
`extract_crawler_name ua` returns a name. -/
theorem llm_filter_naming_agree (ua : Str) :
    is_llm_crawler ua = (extract_crawler_name ua).isSome := by
  unfold is_llm_crawler extract_crawler_name findExactIn findSubIn
  by_cases h : ua.isEmpty
  · simp [h]
  · simp only [h, if_false]
    cases hf : LLM_CRAWLER_PATTERNS.find? (fun p => lowerStr p == lowerStr ua) with
    | some p =>
      have : (LLM_CRAWLER_PATTERNS.find? (fun p => lowerStr p == lowerStr ua)).isSome = true := by
        rw [hf]; rfl
      rw [isSome_find?_eq_any] at this
      simp [this, hf]
    | none =>
      have : (LLM_CRAWLER_PATTERNS.find? (fun p => lowerStr p == lowerStr ua)).isSome = false := by
        rw [hf]; rfl
      rw [isSome_find?_eq_any] at this
      simp [this, hf, isSome_find?_eq_any]

/-- C3 counterexample: the claim asserts a user agent exists on which
`is_llm_crawler` (the chunk filter) says true while `extract_crawler_name`
(the parsers' classifier) returns null; in fact no such user agent exists,
because both module-level functions run the same exact-then-substring
matching over `LLM_CRAWLER_PATTERNS`. -/
theorem claim3_counterexample :
    ¬ ∃ ua : Str, is_llm_crawler ua = true ∧ extract_crawler_name ua = none := by
  rintro ⟨ua, h1, h2⟩
  have h := llm_filter_naming_agree ua
  rw [h1, h2] at h
  exact Bool.noConfusion h

/-!
`CrawlerDatabase` (`crawler_detection.py`, lines 13-248)

The dataclass with the full seven-step classifier.  Its
`extract_crawler_name` method is shadowed at module level and is *not*
the function `log_parsers.py` pulls in; it is embedded here to settle the
claims about the regex / windowed-scan / domain fallback steps.
-/

/-- `CrawlerDatabase.patterns_by_provider` flattened in dict insertion
order (the `_all_patterns` post-init field). -/
def crawlerDbAllPatterns : List Str :=
  (["ChatGPT-User", "OpenAI-GPT", "GPTBot", "OAI-SearchBot",
    "Google-Extended", "Googlebot", "GoogleOther", "Google-CloudVertexBot",
    "Claude-Web", "ClaudeBot", "Claude-User", "Claude-SearchBot",
    "Anthropic-AI", "Claude/", "Anthropic-AI-Crawler",
    "MetaGPT", "LLaMA-Bot", "Meta AI", "Meta-ExternalAgent",
    "Meta-ExternalFetcher", "FacebookBot", "Facebookbot",
    "Cohere-AI", "CohereBot", "cohere-ai", "cohere-training-data-crawler",
    "BingBot", "Bing-AI", "bingbot", "Sydney-AI", "Copilot-Assistant",
    "Perplexity", "PerplexityBot", "Perplexity-User",
    "Amazonbot",
    "Applebot", "Applebot-Extended",
    "MistralAI-User",
    "CCBot",
    "AI2Bot", "AI2Bot-Dolma",
    "DuckDuckBot", "DuckAssistBot", "Diffbot", "Bytespider", "Omgili",
    "Omgilibot", "webzio-extended", "Youbot", "SemrushBot-OCOB", "Petalbot",
    "PanguBot", "Kangaroo Bot", "Sentibot", "img2dataset", "Meltwater",
    "Seekr", "peer39_crawler", "Scrapy"]).map str

/-- `CrawlerDatabase.common_browsers`. -/
def commonBrowsers : List Str :=
  (["mozilla", "chrome", "safari", "firefox", "edge", "opera", "webkit"]).map str

/-- `CrawlerDatabase.domain_mappings` in dict insertion order. -/
def crawlerDbDomainMappings : List (Str × Str) :=
  ([("openai.com", "GPTBot"), ("perplexity.ai", "PerplexityBot"),
    ("bing.com/bingbot", "bingbot"), ("anthropic.com", "Anthropic-AI"),
    ("claude.ai", "Claude-Web"), ("cohere.com", "cohere-ai"),
    ("google.com", "Googlebot"), ("meta.com", "MetaGPT"),
    ("facebook.com", "Facebookbot"), ("amazon.com", "Amazonbot"),
    ("apple.com", "Applebot"), ("mistral.ai", "MistralAI-User")]).map
    (fun dn => (str dn.1, str dn.2))

/-- The regex character class `[A-Za-z0-9_-]` used by the name-extraction
patterns (ASCII, not Python `\w`). -/
def isWordChar (c : Char) : Bool :=
  ('A' ≤ c && c ≤ 'Z') || ('a' ≤ c && c ≤ 'z') ||
  ('0' ≤ c && c ≤ '9') || c == '_' || c == '-'

/-- Python regex `\s` on the ASCII range. -/
def isPySpace (c : Char) : Bool :=
  c == ' ' || c == '\t' || c == '\n' || c == '\r' || c == '\x0b' || c == '\x0c'

/-- Membership of a (lowercased) token in `common_browsers`. -/
def isBrowserTok (w : Str) : Bool :=
  commonBrowsers.any (fun b => b == lowerStr w)

/-- The `"Bot" if "Bot" in user_agent else "bot"` suffix chosen when a
name-extraction pattern containing "bot" hits. -/
def botSuffix (ua : Str) : Str :=
  if containsSub (str ("Bot")) ua then str ("Bot") else str ("bot")

/-- Alternation `(?:Bot|Crawler|Spider)` tested as a prefix. -/
def altBCS (s : Str) : Bool :=
  (str ("Bot")).isPrefixOf s || (str ("Crawler")).isPrefixOf s ||
  (str ("Spider")).isPrefixOf s

/-- Backtracking of the greedy group in
`^([A-Za-z0-9_-]+)(?:Bot|Crawler|Spider)/?`: largest split `k ≥ 1` (within
the maximal word-character prefix) whose remainder starts with one of the
alternatives. -/
def r1FindK (ua : Str) : Nat → Option Nat
  | 0 => none
  | k+1 => if altBCS (ua.drop (k+1)) then some (k+1) else r1FindK ua k

/-- `group(1)` of the first name-extraction regex (anchored at the start;
the trailing `/?` is optional and never constrains the match). -/
def r1Group1 (ua : Str) : Option Str :=
  (r1FindK ua (ua.takeWhile isWordChar).length).map (fun k => ua.take k)

/-- One attempt of `compatible;\s*([A-Za-z0-9_-]+)[/\s]` at a fixed start
position. -/
def r2Try (s : Str) : Option Str :=
  if (str ("compatible;")).isPrefixOf s then
    let rest := (s.drop (str ("compatible;")).length).dropWhile isPySpace
    let w := rest.takeWhile isWordChar
    if w.isEmpty then none
    else match rest.drop w.length with
      | c :: _ => if c == '/' || isPySpace c then some w else none
      | [] => none
  else none

/-- `re.search` of the second name-extraction regex: leftmost start
position at which the pattern matches. -/
def r2Scan : Str → Option Str
  | [] => none
  | c :: rest =>
    match r2Try (c :: rest) with
    | some w => some w
    | none => r2Scan rest

/-- Split test for `([A-Za-z0-9_-]+)(?:Bot|bot)/[\d.~]+` at split `k`:
remainder must start with `Bot/` or `bot/` followed by at least one
character of `[\d.~]`. -/
def r3CheckAt (s : Str) (k : Nat) : Bool :=
  let t := s.drop k
  ((str ("Bot/")).isPrefixOf t || (str ("bot/")).isPrefixOf t) &&
  (match t.drop 4 with
   | c :: _ => c.isDigit || c == '.' || c == '~'
   | [] => false)

/-- Greedy split search for the third name-extraction regex at one start
position. -/
def r3FindK (s : Str) : Nat → Option Nat
  | 0 => none
  | k+1 => if r3CheckAt s (k+1) then some (k+1) else r3FindK s k

/-- One attempt of the third name-extraction regex at a fixed start. -/
def r3TryHere (s : Str) : Option Str :=
  (r3FindK s (s.takeWhile isWordChar).length).map (fun k => s.take k)

/-- `re.search` of the third name-extraction regex (leftmost start). -/
def r3Scan : Str → Option Str
  | [] => none
  | c :: rest =>
    match r3TryHere (c :: rest) with
    | some w => some w
    | none => r3Scan rest

/-- Step through the third name-extraction pattern
(`([A-Za-z0-9_-]+)(?:Bot|bot)/[\d.~]+`; its pattern string contains "bot",
so a hit returns `group(1)` plus the case-matched Bot/bot suffix). -/
def regexStep3 (ua : Str) : Option Str :=
  match r3Scan ua with
  | some g => if isBrowserTok g then none else some (g ++ botSuffix ua)
  | none => none

/-- Steps through the second then third name-extraction patterns (the
second pattern string contains no "bot", and has one group, so a hit
returns `group(1)` unchanged). -/
def regexStep23 (ua : Str) : Option Str :=
  match r2Scan ua with
  | some g => if isBrowserTok g then regexStep3 ua else some g
  | none => regexStep3 ua

/-- The `name_extraction_patterns` loop of
`CrawlerDatabase.extract_crawler_name` (lines 214-224): patterns tried in
order; a match whose `group(1)` is a common-browser token falls through to
the next pattern. -/
def regexNameStep (ua : Str) : Option Str :=
  match r1Group1 ua with
  | some g => if isBrowserTok g then regexStep23 ua else some (g ++ botSuffix ua)
  | none => regexStep23 ua

/-- `str.find` of a substring: index of its first occurrence. -/
def indexOfSubAux (pat : Str) : Str → Nat → Option Nat
  | [], i => if pat.isEmpty then some i else none
  | c :: rest, i =>
    if pat.isPrefixOf (c :: rest) then some i else indexOfSubAux pat rest (i+1)

/-- `str.find` of a substring (`none` models Python's `-1`). -/
def indexOfSub (pat s : Str) : Option Nat := indexOfSubAux pat s 0

/-- Greedy split search for `([A-Za-z0-9_-]+)<term>` (case-insensitive) at
one start position of the look-back segment. -/
def heurFindK (s term : Str) : Nat → Option Nat
  | 0 => none
  | k+1 =>
    if lowerStr ((s.drop (k+1)).take term.length) == term then some (k+1)
    else heurFindK s term k

/-- One attempt of the windowed look-back regex at a fixed start position;
returns (`group(1)`, `group(0)`). -/
def heurTryHere (s term : Str) : Option (Str × Str) :=
  (heurFindK s term (s.takeWhile isWordChar).length).map
    (fun k => (s.take k, s.take (k + term.length)))

/-- `re.search` of the windowed look-back regex over the segment. -/
def heurScan (term : Str) : Str → Option (Str × Str)
  | [] => none
  | c :: rest =>
    match heurTryHere (c :: rest) term with
    | some r => some r
    | none => heurScan term rest

/-- One iteration of the bare-token loop of
`CrawlerDatabase.extract_crawler_name` (lines 227-237): first occurrence
of the term in the lowercased user agent, at a strictly positive index;
look back up to 30 characters; search the segment for an identifier token
directly followed by the term; reject browser tokens. -/
def heurForTerm (ua term : Str) : Option Str :=
  match indexOfSub term (lowerStr ua) with
  | some i =>
    if i > 0 then
      let start := i - 30
      let seg := (ua.drop start).take (i + term.length - start)
      match heurScan term seg with
      | some (g1, g0) =>
        if isBrowserTok g1 then none
        else if term == str ("bot") then some (g1 ++ str ("bot"))
        else some g0
      | none => none
    else none
  | none => none

/-- The bare-token loop over "bot", "crawler", "spider". -/
def heuristicStep (ua : Str) : Option Str :=
  match heurForTerm ua (str ("bot")) with
  | some r => some r
  | none =>
    match heurForTerm ua (str ("crawler")) with
    | some r => some r
    | none => heurForTerm ua (str ("spider"))

/-- The domain-mapping loop (lines 240-242). -/
def domainStep (ua : Str) : Option Str :=
  (crawlerDbDomainMappings.find?
    (fun dn => containsSub dn.1 (lowerStr ua))).map (fun dn => dn.2)

/-- The fallback chain after the exact and substring steps: regex name
extraction, then the windowed bare-token scan, then the domain mapping.
(The method's closing `if self.is_crawler(...): return None / return None`
returns `None` on both branches, so nothing follows the domain step.) -/
def dbFallbackSteps (ua : Str) : Option Str :=
  match regexNameStep ua with
  | some n => some n
  | none =>
    match heuristicStep ua with
    | some n => some n
    | none => domainStep ua

/-- `CrawlerDatabase.extract_crawler_name` (lines 188-248). -/
def crawlerDbExtract (ua : Str) : Option Str :=
  if ua.isEmpty then none
  else
    match findExactIn crawlerDbAllPatterns ua with
    | some p => some p
    | none =>
      match findSubIn crawlerDbAllPatterns ua with
      | some p => some p
      | none => dbFallbackSteps ua

/-!
Shared lemmas about match priority in both classifiers
-/

theorem patterns_nonempty_llm : ∀ q ∈ LLM_CRAWLER_PATTERNS, q ≠ [] := by decide

theorem patterns_nonempty_db : ∀ q ∈ crawlerDbAllPatterns, q ≠ [] := by decide

theorem ua_ne_nil_of_lower_eq {p ua : Str} (hp : p ≠ [])
    (h : lowerStr p = lowerStr ua) : ua ≠ [] := by
  intro hua
  subst hua
  exact hp (List.map_eq_nil_iff.mp h)

theorem dbExtract_of_exact {ua p : Str}
    (h : findExactIn crawlerDbAllPatterns ua = some p) :
    crawlerDbExtract ua = some p := by
  have hmem : p ∈ crawlerDbAllPatterns := List.mem_of_find?_eq_some h
  have hpred := List.find?_some h
  have hpe : lowerStr p = lowerStr ua := eq_of_beq hpred
  have huane : ua ≠ [] := ua_ne_nil_of_lower_eq (patterns_nonempty_db p hmem) hpe
  cases ua with
  | nil => exact absurd rfl huane
  | cons c t => simp [crawlerDbExtract, h]

theorem llmExtract_of_exact {ua p : Str}
    (h : findExactIn LLM_CRAWLER_PATTERNS ua = some p) :
    extract_crawler_name ua = some p := by
  have hmem : p ∈ LLM_CRAWLER_PATTERNS := List.mem_of_find?_eq_some h
  have hpred := List.find?_some h
  have hpe : lowerStr p = lowerStr ua := eq_of_beq hpred
  have huane : ua ≠ [] := ua_ne_nil_of_lower_eq (patterns_nonempty_llm p hmem) hpe
  cases ua with
  | nil => exact absurd rfl huane
  | cons c t => simp [extract_crawler_name, h]

theorem ua_ne_nil_of_sub {p ua : Str} (hp : p ≠ [])
    (h : containsSub (lowerStr p) (lowerStr ua) = true) : ua ≠ [] := by
  intro hua
  subst hua
  simp only [lowerStr, List.map_nil, containsSub, List.isEmpty_iff] at h
  exact hp (List.map_eq_nil_iff.mp h)

theorem dbExtract_of_sub {ua p : Str}
    (hex : findExactIn crawlerDbAllPatterns ua = none)
    (h : findSubIn crawlerDbAllPatterns ua = some p) :
    crawlerDbExtract ua = some p := by
  have hmem : p ∈ crawlerDbAllPatterns := List.mem_of_find?_eq_some h
  have hpred := List.find?_some h
  have huane : ua ≠ [] := ua_ne_nil_of_sub (patterns_nonempty_db p hmem) hpred
  cases ua with
  | nil => exact absurd rfl huane
  | cons c t => simp [crawlerDbExtract, hex, h]

theorem llmExtract_of_sub {ua p : Str}
    (hex : findExactIn LLM_CRAWLER_PATTERNS ua = none)
    (h : findSubIn LLM_CRAWLER_PATTERNS ua = some p) :
    extract_crawler_name ua = some p := by
  have hmem : p ∈ LLM_CRAWLER_PATTERNS := List.mem_of_find?_eq_some h
  have hpred := List.find?_some h
  have huane : ua ≠ [] := ua_ne_nil_of_sub (patterns_nonempty_llm p hmem) hpred
  cases ua with
  | nil => exact absurd rfl huane
  | cons c t => simp [extract_crawler_name, hex, h]

theorem dbExtract_fallthrough {ua : Str}
    (hex : findExactIn crawlerDbAllPatterns ua = none)
    (hsub : findSubIn crawlerDbAllPatterns ua = none) :
    crawlerDbExtract ua = dbFallbackSteps ua := by
  cases ua with
  | nil => rfl
  | cons c t => simp [crawlerDbExtract, hex, hsub]

/-- C6: when the user agent is case-insensitively exactly equal to a known
pattern, both classifiers return the first such pattern via the
exact-match step and never fall through; and when only a substring match
exists, it is returned before any heuristic/domain logic runs.  Matching
is case-insensitive throughout (both sides are lowercased). -/
theorem claim6_exact_beats_substring_beats_heuristic (ua : Str) :
    (∀ p, findExactIn crawlerDbAllPatterns ua = some p →
      crawlerDbExtract ua = some p) ∧
    (∀ p, findExactIn LLM_CRAWLER_PATTERNS ua = some p →
      extract_crawler_name ua = some p) ∧
    (∀ p, findExactIn crawlerDbAllPatterns ua = none →
      findSubIn crawlerDbAllPatterns ua = some p →
      crawlerDbExtract ua = some p) ∧
    (∀ p, findExactIn LLM_CRAWLER_PATTERNS ua = none →
      findSubIn LLM_CRAWLER_PATTERNS ua = some p →
      extract_crawler_name ua = some p) :=
  ⟨fun _ h => dbExtract_of_exact h,
   fun _ h => llmExtract_of_exact h,
   fun _ hex h => dbExtract_of_sub hex h,
   fun _ hex h => llmExtract_of_sub hex h⟩

/-- C6 witness: `gptbot` hits the exact step of both classifiers (the
canonical `GPTBot`); a user agent merely containing `GPTBot` hits the
substring step of both. -/
theorem claim6_witness :
    crawlerDbExtract (str ("gptbot")) = some (str ("GPTBot")) ∧
    extract_crawler_name (str ("gptbot")) = some (str ("GPTBot")) ∧
    crawlerDbExtract (str ("Mozilla/5.0 GPTBot/1.0")) = some (str ("GPTBot")) ∧
    extract_crawler_name (str ("Mozilla/5.0 GPTBot/1.0")) = some (str ("GPTBot")) :=
  ⟨(claim6_exact_beats_substring_beats_heuristic _).1 _ rfl,
   (claim6_exact_beats_substring_beats_heuristic _).2.1 _ rfl,
   (claim6_exact_beats_substring_beats_heuristic _).2.2.1 _ rfl rfl,
   (claim6_exact_beats_substring_beats_heuristic _).2.2.2 _ rfl rfl⟩

/-- C2 counterexample: on `WeirdBot/9.2` — which has no exact and no
substring match in either pattern set — the fallback chain (regex name
extraction) would extract `WeirdBot`, but the classify operation that the
line parsers actually use (`extract_crawler_name`, module level)
returns null: it never attempts the regex/windowed/domain steps. -/
theorem claim2_counterexample :
    findExactIn LLM_CRAWLER_PATTERNS (str ("WeirdBot/9.2")) = none ∧
    findSubIn LLM_CRAWLER_PATTERNS (str ("WeirdBot/9.2")) = none ∧
    findExactIn crawlerDbAllPatterns (str ("WeirdBot/9.2")) = none ∧
    findSubIn crawlerDbAllPatterns (str ("WeirdBot/9.2")) = none ∧
    dbFallbackSteps (str ("WeirdBot/9.2")) = some (str ("WeirdBot")) ∧
    extract_crawler_name (str ("WeirdBot/9.2")) = none :=
  ⟨rfl, rfl, rfl, rfl, rfl, rfl⟩

/-- C2 amended: for a user agent with no case-insensitive exact match and
no substring match, the classify operation wired into the line parsers
(the module-level `extract_crawler_name`) returns null without attempting
any further step; the regex-extraction / windowed-scan / domain-fallback
chain is attempted, in that order, only by the unused
`CrawlerDatabase.extract_crawler_name` method. -/
theorem claim2_amended (ua : Str)
    (hEx : findExactIn LLM_CRAWLER_PATTERNS ua = none)
    (hSub : findSubIn LLM_CRAWLER_PATTERNS ua = none)
    (hEx2 : findExactIn crawlerDbAllPatterns ua = none)
    (hSub2 : findSubIn crawlerDbAllPatterns ua = none) :
    extract_crawler_name ua = none ∧ crawlerDbExtract ua = dbFallbackSteps ua := by
  refine ⟨?_, dbExtract_fallthrough hEx2 hSub2⟩
  cases ua with
  | nil => rfl
  | cons c t => simp [extract_crawler_name, hEx, hSub]

/-- C2 witness: the amended statement applied at `WeirdBot/9.2`. -/
theorem claim2_witness :
    extract_crawler_name (str ("WeirdBot/9.2")) = none ∧
    crawlerDbExtract (str ("WeirdBot/9.2")) =
      dbFallbackSteps (str ("WeirdBot/9.2")) :=
  claim2_amended _ rfl rfl rfl rfl

/-!
Python-level helpers for the parsers

`PyResult` distinguishes a normal return value from an uncaught Python
exception escaping the function (only the `KeyError` on
`log_data["response_time_ms"]` in `log_parsers.py` can actually escape the
line parsers).
-/

/-- Result of a Python call: a value, or an uncaught exception carrying a
message. -/
inductive PyResult (α : Type) where
  | ok (a : α)
  | err (msg : Str)
deriving Repr, DecidableEq

/-- Numeric value of an ASCII digit string. -/
def digitsToNat (ds : Str) : Nat :=
  ds.foldl (fun n c => n * 10 + (c.toNat - 48)) 0

/-- Python `str.strip()` on the ASCII range. -/
def stripStr (s : Str) : Str :=
  ((s.dropWhile isPySpace).reverse.dropWhile isPySpace).reverse

/-- Python `int(s)` restricted to the strings the pipeline can feed it
(optionally signed ASCII digit strings, with surrounding whitespace
allowed); anything else raises `ValueError`, modelled as `none`. -/
def pyIntOfStr (s : Str) : Option Int :=
  match stripStr s with
  | '-' :: ds =>
    if ds.isEmpty || !ds.all Char.isDigit then none
    else some (-(digitsToNat ds : Int))
  | '+' :: ds =>
    if ds.isEmpty || !ds.all Char.isDigit then none
    else some (digitsToNat ds : Int)
  | ds =>
    if ds.isEmpty || !ds.all Char.isDigit then none
    else some (digitsToNat ds : Int)

/-- Python `float(s)` restricted to the strings the `[\d.]+` captures can
produce (digits with at most one dot, at least one digit).  The exact
decimal value is kept as a mantissa/scale pair `(n, k)` denoting
`n / 10^k`; anything else raises `ValueError`, modelled as `none`. -/
def pyFloatOfStr (s : Str) : Option (Nat × Nat) :=
  let t := stripStr s
  let intPart := t.takeWhile Char.isDigit
  match t.drop intPart.length with
  | [] => if intPart.isEmpty then none else some (digitsToNat intPart, 0)
  | '.' :: frac =>
    if !frac.all Char.isDigit then none
    else if intPart.isEmpty && frac.isEmpty then none
    else some (digitsToNat intPart * 10 ^ frac.length + digitsToNat frac,
               frac.length)
  | _ => none

/-!
`datetime.strptime` under the layout `%d/%b/%Y:%H:%M:%S %z`

Both parsers use this one time layout (`_get_time_format` of
`ApacheParser` and `NginxParser`).  The model mirrors CPython's
`_strptime` field regexes plus the `datetime` constructor's calendar
validation; the `%z` model covers `±HH[:]MM[[:]SS]` and `Z` (the optional
fractional-seconds suffix of CPython's `%z` is not modelled — no log
format produces it). -/

/-- A parsed aware timestamp (offset kept in seconds). -/
structure PyTime where
  year : Nat
  month : Nat
  day : Nat
  hour : Nat
  minute : Nat
  second : Nat
  tzSeconds : Int
deriving Repr, DecidableEq

/-- Month abbreviations recognised by `%b` (C locale, case-insensitive). -/
def monthAbbrevs : List Str :=
  (["jan", "feb", "mar", "apr", "may", "jun",
    "jul", "aug", "sep", "oct", "nov", "dec"]).map str

/-- Gregorian leap-year rule (as validated by `datetime`). -/
def isLeapYear (y : Nat) : Bool :=
  y % 4 == 0 && (!(y % 100 == 0) || y % 400 == 0)

/-- Days in a month (as validated by `datetime`). -/
def daysInMonth (y m : Nat) : Nat :=
  if m == 2 then (if isLeapYear y then 29 else 28)
  else if m == 4 || m == 6 || m == 9 || m == 11 then 30
  else 31

/-- Consume one expected literal character. -/
def expectChar (c : Char) : Str → Option Str
  | x :: r => if x == c then some r else none
  | [] => none

/-- `%d`: CPython regex `3[01]|[12]\d|0[1-9]|[1-9]| [1-9]` (a longer digit
run can only match one of these alternatives if the following literal
still matches, which a trailing digit never does — so a 3-digit run
fails). -/
def parseDayField (s : Str) : Option (Nat × Str) :=
  let r := s.takeWhile Char.isDigit
  if r.length == 2 then
    let v := digitsToNat r
    if 1 ≤ v && v ≤ 31 then some (v, s.drop 2) else none
  else if r.length == 1 then
    let v := digitsToNat r
    if 1 ≤ v then some (v, s.drop 1) else none
  else if r.length == 0 then
    match s with
    | ' ' :: d :: rest =>
      if d.isDigit && !(d == '0') then some (digitsToNat [d], rest) else none
    | _ => none
  else none

/-- `%b`: three-letter month abbreviation, case-insensitive. -/
def parseMonthField (s : Str) : Option (Nat × Str) :=
  (monthAbbrevs.findIdx? (fun m => m == lowerStr (s.take 3))).map
    (fun i => (i + 1, s.drop 3))

/-- `%Y`: exactly four digits. -/
def parseYearField (s : Str) : Option (Nat × Str) :=
  match s with
  | a :: b :: c :: d :: rest =>
    if a.isDigit && b.isDigit && c.isDigit && d.isDigit then
      some (digitsToNat [a, b, c, d], rest)
    else none
  | _ => none

/-- `%H`: `2[0-3]|[0-1]\d|\d`. -/
def parseHourField (s : Str) : Option (Nat × Str) :=
  let r := s.takeWhile Char.isDigit
  if r.length == 2 then
    let v := digitsToNat r
    if v ≤ 23 then some (v, s.drop 2) else none
  else if r.length == 1 then some (digitsToNat r, s.drop 1)
  else none

/-- `%M` and `%S`: a 1-2 digit value ≤ 59 (CPython's `%S` also admits
60/61 at the regex level, but the `datetime` constructor then raises, so
the composed behaviour is rejection). -/
def parseMinSecField (s : Str) : Option (Nat × Str) :=
  let r := s.takeWhile Char.isDigit
  if r.length == 2 then
    let v := digitsToNat r
    if v ≤ 59 then some (v, s.drop 2) else none
  else if r.length == 1 then some (digitsToNat r, s.drop 1)
  else none

/-- Optional seconds group inside `%z`.  CPython's `_strptime` requires
the seconds separator to be consistent with the minutes separator (a
colon-separated `HH:MM` takes only `:SS`, a compact `HHMM` takes only
`SS`; a mixed form raises); when no valid seconds group is present the
characters stay unconsumed (a leftover then fails the end-of-string
requirement, which is also the net Python behaviour for mixed forms). -/
def parseTzSeconds (withColon : Bool) (s : Str) : Nat × Str :=
  match withColon, s with
  | true, ':' :: a :: b :: rest =>
    if a.isDigit && b.isDigit && digitsToNat [a, b] ≤ 59 then
      (digitsToNat [a, b], rest)
    else (0, s)
  | false, a :: b :: rest =>
    if a.isDigit && b.isDigit && digitsToNat [a, b] ≤ 59 then
      (digitsToNat [a, b], rest)
    else (0, s)
  | _, _ => (0, s)

/-- The offset in seconds, validated against `timezone`'s strict 24-hour
bound. -/
def tzOffset (neg : Bool) (hh mm ss : Nat) : Option Int :=
  let total : Nat := hh * 3600 + mm * 60 + ss
  if total < 86400 then some (if neg then -(total : Int) else (total : Int))
  else none

/-- `%z`: `Z`, or `[+-]HH[:]MM[[:]SS]` with a consistent separator; the
resulting offset must be strictly less than 24 hours in magnitude
(`timezone` raises otherwise). -/
def parseTzField (s : Str) : Option (Int × Str) :=
  match s with
  | 'Z' :: rest => some (0, rest)
  | sign :: a :: b :: rest =>
    if (sign == '+' || sign == '-') && a.isDigit && b.isDigit then
      let hh := digitsToNat [a, b]
      let withColon := match rest with
        | ':' :: _ => true
        | _ => false
      let rest2 := match rest with
        | ':' :: r => r
        | r => r
      match rest2 with
      | c :: d :: rest3 =>
        if c.isDigit && d.isDigit && digitsToNat [c, d] ≤ 59 then
          let mm := digitsToNat [c, d]
          match parseTzSeconds withColon rest3 with
          | (ss, rest4) =>
            match tzOffset (sign == '-') hh mm ss with
            | some off => some (off, rest4)
            | none => none
        else none
      | _ => none
    else none
  | _ => none

/-- `datetime.strptime(s, "%d/%b/%Y:%H:%M:%S %z")`: the full string must
be consumed, and the date must be a valid calendar date with year ≥ 1. -/
def parseClfTime (s : Str) : Option PyTime :=
  match parseDayField s with
  | none => none
  | some (d, s1) =>
  match expectChar '/' s1 with
  | none => none
  | some s2 =>
  match parseMonthField s2 with
  | none => none
  | some (mo, s3) =>
  match expectChar '/' s3 with
  | none => none
  | some s4 =>
  match parseYearField s4 with
  | none => none
  | some (y, s5) =>
  match expectChar ':' s5 with
  | none => none
  | some s6 =>
  match parseHourField s6 with
  | none => none
  | some (h, s7) =>
  match expectChar ':' s7 with
  | none => none
  | some s8 =>
  match parseMinSecField s8 with
  | none => none
  | some (mi, s9) =>
  match expectChar ':' s9 with
  | none => none
  | some s10 =>
  match parseMinSecField s10 with
  | none => none
  | some (se, s11) =>
  match expectChar ' ' s11 with
  | none => none
  | some s12 =>
  match parseTzField s12 with
  | none => none
  | some (off, s13) =>
  if s13.isEmpty && 1 ≤ y && d ≤ daysInMonth y mo then
    some { year := y, month := mo, day := d, hour := h, minute := mi,
           second := se, tzSeconds := off }
  else none

/-!
The line-pattern matchers (`log_parsers.py`)

The five patterns share a common prefix
`(?P<ip>\S+) \S+ \S+ \[(?P<time>[^\]]+)\] "(?P<method>\S+) (?P<path>[^"]*)
HTTP/[\d\.]*" (?P<status>\d+) (?P<size>\S+) "(?P<referer>[^"]*)"
"(?P<user_agent>[^"]*)"`, used with `re.match` (anchored at the start,
trailing text permitted).  Every greedy element of these patterns is
followed by a character its class excludes — except the `path` group,
whose backtracking is resolved explicitly by taking the *last* occurrence
of `" HTTP/"` before the closing quote whose tail is all `[\d.]` (the
greedy `[^"]*` keeps the path maximal).  The matchers below are therefore
deterministic transcriptions of the regexes (character classes on the
ASCII range, as everywhere in this embedding: `\d` as ASCII digits, `\s`
as ASCII whitespace). -/

/-- The named captures of one structural line match.  `responseTime` /
`requestId` are `none` when the matching pattern has no such group
(mirroring absence from `groupdict()`). -/
structure LineCaps where
  ip : Str
  time : Str
  method : Str
  path : Str
  status : Str
  size : Str
  referer : Str
  userAgent : Str
  responseTime : Option Str := none
  requestId : Option Str := none
deriving Repr, DecidableEq

/-- `\S+ ` — greedy non-space token followed by a literal space. -/
def tokSpace (s : Str) : Option (Str × Str) :=
  let r := s.takeWhile (fun c => !(isPySpace c))
  if r.isEmpty then none
  else match s.drop r.length with
    | ' ' :: rest => some (r, rest)
    | _ => none

/-- Trailing `\S+` — greedy non-space token, remainder unconstrained. -/
def tokEnd (s : Str) : Option Str :=
  let r := s.takeWhile (fun c => !(isPySpace c))
  if r.isEmpty then none else some r

/-- `[^c]*c` — possibly empty run up to the first `c`, consuming it. -/
def takeUntil (c : Char) (s : Str) : Option (Str × Str) :=
  let pre := s.takeWhile (fun x => !(x == c))
  match s.drop pre.length with
  | _ :: rest => some (pre, rest)
  | [] => none

/-- `[^c]+c` — like `takeUntil` but the run must be nonempty. -/
def takeUntil1 (c : Char) (s : Str) : Option (Str × Str) :=
  match takeUntil c s with
  | some (pre, rest) => if pre.isEmpty then none else some (pre, rest)
  | none => none

/-- `\d+ ` — greedy digit run followed by a literal space. -/
def digitsTok (s : Str) : Option (Str × Str) :=
  let r := s.takeWhile Char.isDigit
  if r.isEmpty then none
  else match s.drop r.length with
    | ' ' :: rest => some (r, rest)
    | _ => none

/-- Trailing `\d+`. -/
def digitsEnd (s : Str) : Option Str :=
  let r := s.takeWhile Char.isDigit
  if r.isEmpty then none else some r

/-- The class `[\d.]`. -/
def isDigitDot (c : Char) : Bool := c.isDigit || c == '.'

/-- `[\d.]+ ` — greedy digit/dot run followed by a literal space. -/
def digitDotTok (s : Str) : Option (Str × Str) :=
  let r := s.takeWhile isDigitDot
  if r.isEmpty then none
  else match s.drop r.length with
    | ' ' :: rest => some (r, rest)
    | _ => none

/-- Trailing `[\d.]+`. -/
def digitDotEnd (s : Str) : Option Str :=
  let r := s.takeWhile isDigitDot
  if r.isEmpty then none else some r

/-- Does the remainder of the request segment read ` HTTP/` followed only
by `[\d.]` characters? -/
def httpTailOk (t : Str) : Bool :=
  (str (" HTTP/")).isPrefixOf t && (t.drop 6).all isDigitDot

/-- Largest split of the request segment satisfying `httpTailOk` (the
greedy `[^"]*` path group). -/
def reqSplitGo (t : Str) : Nat → Option Nat
  | 0 => if httpTailOk t then some 0 else none
  | i+1 => if httpTailOk (t.drop (i+1)) then some (i+1) else reqSplitGo t i

/-- The `path` capture: the request segment up to its last ` HTTP/` whose
tail is all `[\d.]`. -/
def splitRequestPath (t : Str) : Option Str :=
  (reqSplitGo t t.length).map (fun i => t.take i)

/-- The shared pattern prefix; returns the eight common captures and the
unconsumed remainder of the line. -/
def matchCommon (line : Str) : Option (LineCaps × Str) :=
  match tokSpace line with
  | none => none
  | some (ip, s1) =>
  match tokSpace s1 with
  | none => none
  | some (_, s2) =>
  match tokSpace s2 with
  | none => none
  | some (_, s3) =>
  match expectChar '[' s3 with
  | none => none
  | some s4 =>
  match takeUntil1 ']' s4 with
  | none => none
  | some (time, s5) =>
  match expectChar ' ' s5 with
  | none => none
  | some s6 =>
  match expectChar '"' s6 with
  | none => none
  | some s7 =>
  match tokSpace s7 with
  | none => none
  | some (method, s8) =>
  match takeUntil '"' s8 with
  | none => none
  | some (t, s9) =>
  match splitRequestPath t with
  | none => none
  | some path =>
  match expectChar ' ' s9 with
  | none => none
  | some s10 =>
  match digitsTok s10 with
  | none => none
  | some (status, s11) =>
  match tokSpace s11 with
  | none => none
  | some (size, s12) =>
  match expectChar '"' s12 with
  | none => none
  | some s13 =>
  match takeUntil '"' s13 with
  | none => none
  | some (referer, s14) =>
  match expectChar ' ' s14 with
  | none => none
  | some s15 =>
  match expectChar '"' s15 with
  | none => none
  | some s16 =>
  match takeUntil '"' s16 with
  | none => none
  | some (userAgent, s17) =>
  some ({ ip := ip, time := time, method := method, path := path,
          status := status, size := size, referer := referer,
          userAgent := userAgent }, s17)

/-- The `apache_with_time` pattern: common prefix plus
` (?P<response_time>\d+)`. -/
def matchApacheWithTime (line : Str) : Option LineCaps :=
  match matchCommon line with
  | none => none
  | some (caps, rest) =>
  match expectChar ' ' rest with
  | none => none
  | some rest2 =>
  match digitsEnd rest2 with
  | none => none
  | some rt => some { caps with responseTime := some rt }

/-- The `apache_standard` pattern: exactly the common prefix. -/
def matchApacheStandard (line : Str) : Option LineCaps :=
  (matchCommon line).map (fun cr => cr.1)

/-- The `nginx_with_id` pattern: common prefix plus
` (?P<response_time>[\d\.]+) (?P<request_id>\S+)`. -/
def matchNginxWithId (line : Str) : Option LineCaps :=
  match matchCommon line with
  | none => none
  | some (caps, rest) =>
  match expectChar ' ' rest with
  | none => none
  | some rest2 =>
  match digitDotTok rest2 with
  | none => none
  | some (rt, rest3) =>
  match tokEnd rest3 with
  | none => none
  | some rid => some { caps with responseTime := some rt, requestId := some rid }

/-- The `nginx_with_time` pattern: common prefix plus
` (?P<response_time>[\d\.]+)`. -/
def matchNginxWithTime (line : Str) : Option LineCaps :=
  match matchCommon line with
  | none => none
  | some (caps, rest) =>
  match expectChar ' ' rest with
  | none => none
  | some rest2 =>
  match digitDotEnd rest2 with
  | none => none
  | some rt => some { caps with responseTime := some rt }

/-- The `nginx_standard` pattern: exactly the common prefix. -/
def matchNginxStandard (line : Str) : Option LineCaps :=
  (matchCommon line).map (fun cr => cr.1)

/-!
`LogParser._parse_common_fields` and the two `_process_match` methods
-/

/-- A fully parsed log entry (the dict built by `_process_match`). -/
structure LogEntry where
  time : PyTime
  ipAddress : Str
  method : Str
  path : Str
  status : Option Int
  userAgent : Str
  crawlerName : Option Str
  referer : Option Str
  requestId : Option Str
  responseTimeMs : Option Int
deriving Repr, DecidableEq

/-- Fuel-driven core of `str.replace(pat, "")` (fuel is the string length,
always sufficient; Python's replace rescans after the removed
occurrence). -/
def removeAllSubGo (pat : Str) : Nat → Str → Str
  | 0, s => s
  | _, [] => []
  | fuel+1, c :: rest =>
    if !pat.isEmpty && pat.isPrefixOf (c :: rest) then
      removeAllSubGo pat fuel ((c :: rest).drop pat.length)
    else c :: removeAllSubGo pat fuel rest

/-- Python `s.replace(pat, "")`. -/
def removeAllSub (pat s : Str) : Str := removeAllSubGo pat s.length s

/-- An opening or closing curly brace. -/
def isBraceChar (c : Char) : Bool :=
  c == Char.ofNat 123 || c == Char.ofNat 125

/-- Python `s.strip(braces)`. -/
def stripBraces (s : Str) : Str :=
  ((s.dropWhile isBraceChar).reverse.dropWhile isBraceChar).reverse

/-- ASCII hexadecimal digit. -/
def isHexDigitChar (c : Char) : Bool :=
  c.isDigit || ('a' ≤ c && c ≤ 'f') || ('A' ≤ c && c ≤ 'F')

/-- `uuid.UUID(s)` normalisation: drop `urn:` / `uuid:`, strip braces,
remove hyphens, require exactly 32 hex digits; the value is kept as the
lowercased hex string (`ValueError` is `none`). -/
def uuidParse (s : Str) : Option Str :=
  let h := (removeAllSub (str ("uuid:")) (removeAllSub (str ("urn:")) s))
  let h2 := (stripBraces h).filter (fun c => !(c == '-'))
  if h2.length == 32 && h2.all isHexDigitChar then some (lowerStr h2) else none

/-- The scan of `re.search(r'request_id=([^&\s]+)', path)`: leftmost
position where the literal is followed by a nonempty run of characters
that are neither `&` nor whitespace. -/
def reqIdScan : Str → Option Str
  | [] => none
  | c :: rest =>
    if (str ("request_id=")).isPrefixOf (c :: rest) then
      let run := ((c :: rest).drop (str ("request_id=")).length).takeWhile
        (fun x => !(x == '&') && !(isPySpace x))
      if run.isEmpty then reqIdScan rest else some run
    else reqIdScan rest

/-- `LogParser.extract_request_id`: recover a `request_id=` query value
from the path and parse it as a UUID (`ValueError` yields `None`). -/
def extractRequestIdFromPath (path : Str) : Option Str :=
  match reqIdScan path with
  | some rid => uuidParse rid
  | none => none

/-- The fields set by `_parse_common_fields`. -/
structure CommonFields where
  time : PyTime
  status : Option Int
  referer : Option Str
  requestId : Option Str
deriving Repr, DecidableEq

/-- `LogParser._parse_common_fields` (lines 93-115): a timestamp that
fails `strptime` voids the call (`None`); a status that fails `int()`
becomes `None`; a `-` referer becomes `None`; an absent or falsy
request id is recovered from the path.  `requestIdPre` is the
`request_id` entry of the dict on entry: `none` when the key is absent
(Apache), `some v` when the Nginx `_process_match` already stored a
parsed UUID (`v = none` models a stored Python `None`, which is falsy). -/
def parseCommonFields (timeS statusS refererS pathS : Str)
    (requestIdPre : Option (Option Str)) : Option CommonFields :=
  match parseClfTime timeS with
  | none => none
  | some t =>
    some { time := t
           status := pyIntOfStr statusS
           referer := if refererS == str ("-") then none else some refererS
           requestId :=
             match requestIdPre with
             | some (some u) => some u
             | _ => extractRequestIdFromPath pathS }

/-- The Apache response-time rule: `int(int(us)/1000)` — microseconds to
whole milliseconds.  CPython computes `int(us)/1000` in floating point;
for every capture below 2^53 (every realistic response time, and all
captures of ≤ 15 digits) this equals exact integer division by 1000,
which is what is modelled. -/
def apacheRespMs (rt : Str) : Option Int :=
  (pyIntOfStr rt).map (fun n => n / 1000)

/-- The Nginx response-time rule: `int(float(s)*1000)` — seconds to whole
milliseconds.  CPython computes this in floating point; the model uses
the exact rational value of the capture (the two computations agree on
all short captures such as `0.123`, though not on every conceivable one —
see the development notes). -/
def nginxRespMs (rt : Str) : Option Int :=
  (pyFloatOfStr rt).map (fun nk => ((nk.1 * 1000) / 10 ^ nk.2 : Nat))

/-- `ApacheParser._process_match` (lines 37-66).  When the matching
pattern had no `response_time` group, the final dict construction reads
the absent `log_data["response_time_ms"]` key and raises `KeyError`
(after a successful `_parse_common_fields`); this is the `err` case. -/
def apacheProcessMatch (caps : LineCaps) : PyResult (Option LogEntry) :=
  match parseCommonFields caps.time caps.status caps.referer caps.path none with
  | none => .ok none
  | some cf =>
    match caps.responseTime.map apacheRespMs with
    | none => .err (str ("KeyError: response_time_ms"))
    | some v =>
      .ok (some { time := cf.time, ipAddress := caps.ip, method := caps.method,
                  path := caps.path, status := cf.status,
                  userAgent := caps.userAgent,
                  crawlerName := extract_crawler_name caps.userAgent,
                  referer := cf.referer, requestId := cf.requestId,
                  responseTimeMs := v })

/-- `NginxParser._process_match` (lines 98-134): additionally parses a
captured `request_id` as a UUID (invalid → `None`) before the common
fields, and converts seconds to milliseconds.  Shares the same `KeyError`
behaviour for patterns without a `response_time` group. -/
def nginxProcessMatch (caps : LineCaps) : PyResult (Option LogEntry) :=
  match parseCommonFields caps.time caps.status caps.referer caps.path
      (caps.requestId.map uuidParse) with
  | none => .ok none
  | some cf =>
    match caps.responseTime.map nginxRespMs with
    | none => .err (str ("KeyError: response_time_ms"))
    | some v =>
      .ok (some { time := cf.time, ipAddress := caps.ip, method := caps.method,
                  path := caps.path, status := cf.status,
                  userAgent := caps.userAgent,
                  crawlerName := extract_crawler_name caps.userAgent,
                  referer := cf.referer, requestId := cf.requestId,
                  responseTimeMs := v })

/-- The Apache pattern list tried in order (`apache_with_time` first). -/
def apacheFirstMatch (line : Str) : Option LineCaps :=
  match matchApacheWithTime line with
  | some caps => some caps
  | none => matchApacheStandard line

/-- `ApacheParser.parse_line`: first structurally matching pattern wins;
no structural match returns `None` silently. -/
def apacheParseLine (line : Str) : PyResult (Option LogEntry) :=
  match apacheFirstMatch line with
  | some caps => apacheProcessMatch caps
  | none => .ok none

/-- The Nginx pattern list tried in order (`nginx_with_id`, then
`nginx_with_time`, then `nginx_standard`). -/
def nginxFirstMatch (line : Str) : Option LineCaps :=
  match matchNginxWithId line with
  | some caps => some caps
  | none =>
    match matchNginxWithTime line with
    | some caps => some caps
    | none => matchNginxStandard line

/-- `NginxParser.parse_line`. -/
def nginxParseLine (line : Str) : PyResult (Option LogEntry) :=
  match nginxFirstMatch line with
  | some caps => nginxProcessMatch caps
  | none => .ok none




/-!
Lemmas about `_process_match` and `parse_line`
-/

theorem apacheParseLine_of_withTime {line : Str} {caps : LineCaps}
    (hm : matchApacheWithTime line = some caps) :
    apacheParseLine line = apacheProcessMatch caps := by
  unfold apacheParseLine apacheFirstMatch
  rw [hm]

theorem nginxParseLine_of_first {line : Str} {caps : LineCaps}
    (hm : nginxFirstMatch line = some caps) :
    nginxParseLine line = nginxProcessMatch caps := by
  unfold nginxParseLine
  rw [hm]

theorem apacheParseLine_of_first {line : Str} {caps : LineCaps}
    (hm : apacheFirstMatch line = some caps) :
    apacheParseLine line = apacheProcessMatch caps := by
  unfold apacheParseLine
  rw [hm]

theorem apacheProcessMatch_respMs {caps : LineCaps} {rt : Str} {e : LogEntry}
    (hrt : caps.responseTime = some rt)
    (hp : apacheProcessMatch caps = PyResult.ok (some e)) :
    e.responseTimeMs = apacheRespMs rt := by
  unfold apacheProcessMatch at hp
  rw [hrt] at hp
  cases hcf : parseCommonFields caps.time caps.status caps.referer caps.path none with
  | none => rw [hcf] at hp; simp [Option.map] at hp
  | some cf =>
    rw [hcf] at hp
    simp only [Option.map, PyResult.ok.injEq, Option.some.injEq] at hp
    rw [← hp]

theorem nginxProcessMatch_respMs {caps : LineCaps} {rt : Str} {e : LogEntry}
    (hrt : caps.responseTime = some rt)
    (hp : nginxProcessMatch caps = PyResult.ok (some e)) :
    e.responseTimeMs = nginxRespMs rt := by
  unfold nginxProcessMatch at hp
  rw [hrt] at hp
  cases hcf : parseCommonFields caps.time caps.status caps.referer caps.path
      (caps.requestId.map uuidParse) with
  | none => rw [hcf] at hp; simp [Option.map] at hp
  | some cf =>
    rw [hcf] at hp
    simp only [Option.map, PyResult.ok.injEq, Option.some.injEq] at hp
    rw [← hp]

theorem parseCommonFields_none_of_timeFail {t st ref pa : Str}
    {rid : Option (Option Str)} (ht : parseClfTime t = none) :
    parseCommonFields t st ref pa rid = none := by
  unfold parseCommonFields
  rw [ht]

theorem apacheProcessMatch_timeFail {caps : LineCaps}
    (ht : parseClfTime caps.time = none) :
    apacheProcessMatch caps = PyResult.ok none := by
  unfold apacheProcessMatch
  rw [parseCommonFields_none_of_timeFail ht]

theorem nginxProcessMatch_timeFail {caps : LineCaps}
    (ht : parseClfTime caps.time = none) :
    nginxProcessMatch caps = PyResult.ok none := by
  unfold nginxProcessMatch
  rw [parseCommonFields_none_of_timeFail ht]

theorem parseCommonFields_status {t st ref pa : Str} {rid : Option (Option Str)}
    {cf : CommonFields} (h : parseCommonFields t st ref pa rid = some cf) :
    cf.status = pyIntOfStr st := by
  unfold parseCommonFields at h
  cases hct : parseClfTime t with
  | none => rw [hct] at h; exact Option.noConfusion h
  | some pt =>
    rw [hct] at h
    simp only [Option.some.injEq] at h
    rw [← h]

theorem apacheProcessMatch_entry {caps : LineCaps} {pt : PyTime} {v : Option Int}
    (hct : parseClfTime caps.time = some pt)
    (hrt : caps.responseTime.map apacheRespMs = some v) :
    apacheProcessMatch caps = PyResult.ok (some
      { time := pt, ipAddress := caps.ip, method := caps.method,
        path := caps.path, status := pyIntOfStr caps.status,
        userAgent := caps.userAgent,
        crawlerName := extract_crawler_name caps.userAgent,
        referer := if caps.referer == str ("-") then none else some caps.referer,
        requestId := extractRequestIdFromPath caps.path,
        responseTimeMs := v }) := by
  unfold apacheProcessMatch parseCommonFields
  rw [hct, hrt]

theorem extract_crawler_name_mem {ua p : Str}
    (h : extract_crawler_name ua = some p) : p ∈ LLM_CRAWLER_PATTERNS := by
  unfold extract_crawler_name at h
  by_cases hua : ua.isEmpty
  · rw [if_pos hua] at h; exact Option.noConfusion h
  · rw [if_neg hua] at h
    cases hf : findExactIn LLM_CRAWLER_PATTERNS ua with
    | some q =>
      rw [hf] at h
      have hq : q ∈ LLM_CRAWLER_PATTERNS := List.mem_of_find?_eq_some hf
      cases h; exact hq
    | none =>
      rw [hf] at h
      exact List.mem_of_find?_eq_some h

theorem apacheProcessMatch_crawler {caps : LineCaps} {e : LogEntry}
    (hp : apacheProcessMatch caps = PyResult.ok (some e)) :
    e.crawlerName = extract_crawler_name e.userAgent := by
  unfold apacheProcessMatch at hp
  cases hcf : parseCommonFields caps.time caps.status caps.referer caps.path none with
  | none => rw [hcf] at hp; simp [Option.map] at hp
  | some cf =>
    rw [hcf] at hp
    cases hv : caps.responseTime.map apacheRespMs with
    | none => rw [hv] at hp; simp at hp
    | some v =>
      rw [hv] at hp
      simp only [PyResult.ok.injEq, Option.some.injEq] at hp
      rw [← hp]

theorem nginxProcessMatch_crawler {caps : LineCaps} {e : LogEntry}
    (hp : nginxProcessMatch caps = PyResult.ok (some e)) :
    e.crawlerName = extract_crawler_name e.userAgent := by
  unfold nginxProcessMatch at hp
  cases hcf : parseCommonFields caps.time caps.status caps.referer caps.path
      (caps.requestId.map uuidParse) with
  | none => rw [hcf] at hp; simp [Option.map] at hp
  | some cf =>
    rw [hcf] at hp
    cases hv : caps.responseTime.map nginxRespMs with
    | none => rw [hv] at hp; simp at hp
    | some v =>
      rw [hv] at hp
      simp only [PyResult.ok.injEq, Option.some.injEq] at hp
      rw [← hp]

theorem apacheParseLine_crawler {line : Str} {e : LogEntry}
    (hp : apacheParseLine line = PyResult.ok (some e)) :
    e.crawlerName = extract_crawler_name e.userAgent := by
  unfold apacheParseLine at hp
  cases hm : apacheFirstMatch line with
  | none => rw [hm] at hp; exact absurd hp (by simp)
  | some caps =>
    rw [hm] at hp
    exact apacheProcessMatch_crawler hp

theorem nginxParseLine_crawler {line : Str} {e : LogEntry}
    (hp : nginxParseLine line = PyResult.ok (some e)) :
    e.crawlerName = extract_crawler_name e.userAgent := by
  unfold nginxParseLine at hp
  cases hm : nginxFirstMatch line with
  | none => rw [hm] at hp; exact absurd hp (by simp)
  | some caps =>
    rw [hm] at hp
    exact nginxProcessMatch_crawler hp

/-- C7: whenever a line structurally matches a variant carrying a
`response_time` group and an entry is produced, the entry's
`response_time_ms` is the variant's unit conversion of the capture —
truncated microseconds/1000 for the Apache family (`125000 ↦ 125`),
truncated seconds×1000 for the Nginx family (`0.123 ↦ 123`) — and an
unconvertible capture yields `none` rather than an error (`1.2.3 ↦ none`,
via the same conversion functions). -/
theorem claim7_response_time_conversion :
    (∀ line caps rt e, matchApacheWithTime line = some caps →
       caps.responseTime = some rt →
       apacheParseLine line = PyResult.ok (some e) →
       e.responseTimeMs = apacheRespMs rt) ∧
    (∀ line caps rt e, nginxFirstMatch line = some caps →
       caps.responseTime = some rt →
       nginxParseLine line = PyResult.ok (some e) →
       e.responseTimeMs = nginxRespMs rt) ∧
    apacheRespMs (str ("125000")) = some 125 ∧
    nginxRespMs (str ("0.123")) = some 123 ∧
    nginxRespMs (str ("1.2.3")) = none := by
  refine ⟨?_, ?_, rfl, rfl, rfl⟩
  · intro line caps rt e hm hrt hp
    rw [apacheParseLine_of_withTime hm] at hp
    exact apacheProcessMatch_respMs hrt hp
  · intro line caps rt e hm hrt hp
    rw [nginxParseLine_of_first hm] at hp
    exact nginxProcessMatch_respMs hrt hp

/-- Witness line: Apache extended format with a 125000 µs response time. -/
def wLineApache : Str :=
  str ("1.2.3.4 - - [10/Oct/2023:13:55:36 +0000] \"GET /index.html HTTP/1.1\" 200 2326 \"-\" \"GPTBot/1.0\" 125000")

/-- The captures of `wLineApache` under `apache_with_time`. -/
def wCapsApache : LineCaps :=
  { ip := str ("1.2.3.4"), time := str ("10/Oct/2023:13:55:36 +0000"),
    method := str ("GET"), path := str ("/index.html"), status := str ("200"),
    size := str ("2326"), referer := str ("-"), userAgent := str ("GPTBot/1.0"),
    responseTime := some (str ("125000")), requestId := none }

/-- The entry produced from `wLineApache`. -/
def wEntryApache : LogEntry :=
  { time := { year := 2023, month := 10, day := 10, hour := 13, minute := 55,
              second := 36, tzSeconds := 0 },
    ipAddress := str ("1.2.3.4"), method := str ("GET"),
    path := str ("/index.html"), status := some 200,
    userAgent := str ("GPTBot/1.0"), crawlerName := some (str ("GPTBot")),
    referer := none, requestId := none, responseTimeMs := some 125 }

/-- Witness line: Nginx format with a 0.123 s response time. -/
def wLineNginx : Str :=
  str ("1.2.3.4 - - [10/Oct/2023:13:55:36 +0000] \"GET /index.html HTTP/1.1\" 200 2326 \"-\" \"Mozilla/5.0 (compatible; GPTBot/1.0)\" 0.123")

/-- The captures of `wLineNginx` under `nginx_with_time`. -/
def wCapsNginx : LineCaps :=
  { ip := str ("1.2.3.4"), time := str ("10/Oct/2023:13:55:36 +0000"),
    method := str ("GET"), path := str ("/index.html"), status := str ("200"),
    size := str ("2326"), referer := str ("-"),
    userAgent := str ("Mozilla/5.0 (compatible; GPTBot/1.0)"),
    responseTime := some (str ("0.123")), requestId := none }

/-- The entry produced from `wLineNginx`. -/
def wEntryNginx : LogEntry :=
  { time := { year := 2023, month := 10, day := 10, hour := 13, minute := 55,
              second := 36, tzSeconds := 0 },
    ipAddress := str ("1.2.3.4"), method := str ("GET"),
    path := str ("/index.html"), status := some 200,
    userAgent := str ("Mozilla/5.0 (compatible; GPTBot/1.0)"),
    crawlerName := some (str ("GPTBot")),
    referer := none, requestId := none, responseTimeMs := some 123 }

/-- C7 witness: the conversion theorem applied to concrete Apache and
Nginx lines (125000 µs becomes 125 ms; 0.123 s becomes 123 ms). -/
theorem claim7_witness :
    apacheParseLine wLineApache = PyResult.ok (some wEntryApache) ∧
    wEntryApache.responseTimeMs = apacheRespMs (str ("125000")) ∧
    nginxParseLine wLineNginx = PyResult.ok (some wEntryNginx) ∧
    wEntryNginx.responseTimeMs = nginxRespMs (str ("0.123")) :=
  ⟨rfl,
   claim7_response_time_conversion.1 wLineApache wCapsApache _ wEntryApache rfl rfl rfl,
   rfl,
   claim7_response_time_conversion.2.1 wLineNginx wCapsNginx _ wEntryNginx rfl rfl rfl⟩

/-- C8: for a structurally matched line (any variant of either family), a
timestamp that fails the layout voids the whole line — `parse_line`
returns `None`, no partial entry; whereas a status that fails `int()`
leaves the fields intact with `status = None`, and for a capture set
carrying a `response_time` group the entry is still produced with
`status = none`. -/
theorem claim8_time_voids_status_nulls :
    (∀ line caps, apacheFirstMatch line = some caps →
       parseClfTime caps.time = none →
       apacheParseLine line = PyResult.ok none) ∧
    (∀ line caps, nginxFirstMatch line = some caps →
       parseClfTime caps.time = none →
       nginxParseLine line = PyResult.ok none) ∧
    (∀ t st ref pa rid cf, parseCommonFields t st ref pa rid = some cf →
       pyIntOfStr st = none → cf.status = none) ∧
    (∀ caps pt (v : Option Int), parseClfTime caps.time = some pt →
       caps.responseTime.map apacheRespMs = some v →
       pyIntOfStr caps.status = none →
       ∃ e, apacheProcessMatch caps = PyResult.ok (some e) ∧ e.status = none) := by
  refine ⟨?_, ?_, ?_, ?_⟩
  · intro line caps hm ht
    rw [apacheParseLine_of_first hm]
    exact apacheProcessMatch_timeFail ht
  · intro line caps hm ht
    rw [nginxParseLine_of_first hm]
    exact nginxProcessMatch_timeFail ht
  · intro t st ref pa rid cf h hst
    rw [parseCommonFields_status h, hst]
  · intro caps pt v hct hrt hst
    refine ⟨_, apacheProcessMatch_entry hct hrt, ?_⟩
    simpa using hst

/-- Witness line with an unparsable timestamp. -/
def wLineBadTime : Str :=
  str ("1.2.3.4 - - [garbage] \"GET / HTTP/1.1\" 200 10 \"-\" \"UA\" 5")

/-- Witness line (Nginx) with an unparsable timestamp. -/
def wLineBadTimeN : Str :=
  str ("1.2.3.4 - - [garbage] \"GET / HTTP/1.1\" 200 10 \"-\" \"UA\" 0.5")

/-- The captures of `wLineBadTime`. -/
def wCapsBadTime : LineCaps :=
  { ip := str ("1.2.3.4"), time := str ("garbage"), method := str ("GET"),
    path := str ("/"), status := str ("200"), size := str ("10"),
    referer := str ("-"), userAgent := str ("UA"),
    responseTime := some (str ("5")), requestId := none }

/-- The captures of `wLineBadTimeN`. -/
def wCapsBadTimeN : LineCaps :=
  { ip := str ("1.2.3.4"), time := str ("garbage"), method := str ("GET"),
    path := str ("/"), status := str ("200"), size := str ("10"),
    referer := str ("-"), userAgent := str ("UA"),
    responseTime := some (str ("0.5")), requestId := none }

/-- A capture set with a good timestamp but an uncoercible status. -/
def wCapsBadStatus : LineCaps :=
  { ip := str ("1.2.3.4"), time := str ("10/Oct/2023:13:55:36 +0000"),
    method := str ("GET"), path := str ("/"), status := str ("20x"),
    size := str ("10"), referer := str ("-"), userAgent := str ("UA"),
    responseTime := some (str ("1000")), requestId := none }

/-- C8 witness: a garbage timestamp voids concrete Apache and Nginx lines;
an uncoercible status still yields an entry with `status = none`. -/
theorem claim8_witness :
    apacheParseLine wLineBadTime = PyResult.ok none ∧
    nginxParseLine wLineBadTimeN = PyResult.ok none ∧
    (∃ e, apacheProcessMatch wCapsBadStatus = PyResult.ok (some e) ∧
       e.status = none) :=
  ⟨claim8_time_voids_status_nulls.1 wLineBadTime wCapsBadTime rfl rfl,
   claim8_time_voids_status_nulls.2.1 wLineBadTimeN wCapsBadTimeN rfl rfl,
   claim8_time_voids_status_nulls.2.2.2 wCapsBadStatus
     { year := 2023, month := 10, day := 10, hour := 13, minute := 55,
       second := 36, tzSeconds := 0 } (some (1 : Int)) rfl rfl rfl⟩

/-- C10: every entry produced by the wired-in Apache or Nginx parser has a
`crawler_name` that is either null or verbatim one of the literal strings
of `LLM_CRAWLER_PATTERNS` — never a heuristically constructed or
domain-derived name. -/
theorem claim10_crawler_name_verbatim :
    (∀ line e, apacheParseLine line = PyResult.ok (some e) →
       e.crawlerName = none ∨ ∃ p ∈ LLM_CRAWLER_PATTERNS, e.crawlerName = some p) ∧
    (∀ line e, nginxParseLine line = PyResult.ok (some e) →
       e.crawlerName = none ∨ ∃ p ∈ LLM_CRAWLER_PATTERNS, e.crawlerName = some p) := by
  constructor
  · intro line e hp
    have hc := apacheParseLine_crawler hp
    cases hx : extract_crawler_name e.userAgent with
    | none => left; rw [hc, hx]
    | some p =>
      right
      exact ⟨p, extract_crawler_name_mem hx, by rw [hc, hx]⟩
  · intro line e hp
    have hc := nginxParseLine_crawler hp
    cases hx : extract_crawler_name e.userAgent with
    | none => left; rw [hc, hx]
    | some p =>
      right
      exact ⟨p, extract_crawler_name_mem hx, by rw [hc, hx]⟩

/-- C10 witness: the invariant applied to the concrete parsed entries of
the witness lines. -/
theorem claim10_witness :
    apacheParseLine wLineApache = PyResult.ok (some wEntryApache) ∧
    (wEntryApache.crawlerName = none ∨
      ∃ p ∈ LLM_CRAWLER_PATTERNS, wEntryApache.crawlerName = some p) ∧
    nginxParseLine wLineNginx = PyResult.ok (some wEntryNginx) ∧
    (wEntryNginx.crawlerName = none ∨
      ∃ p ∈ LLM_CRAWLER_PATTERNS, wEntryNginx.crawlerName = some p) :=
  ⟨rfl, claim10_crawler_name_verbatim.1 wLineApache wEntryApache rfl,
   rfl, claim10_crawler_name_verbatim.2 wLineNginx wEntryNginx rfl⟩

/-!
`backend/parser/processor.py` — detection, chunking, processing

`LogProcessor.process` is pure except for wall-clock timing; the elapsed
time is passed in as a parameter (`elapsed`), and the worker pool is
order-preserving `pool.map`, so its fan-out/fan-in is the per-chunk map
below.  A `PyResult.err` models an exception propagating out of
`process` (a worker exception re-raised by `pool.map`, or the
`ValueError` raised on failed format detection).
-/

/-- The detected log format. -/
inductive LogFormat where
  | apache
  | nginx
deriving Repr, DecidableEq

/-- `detect_log_format` (lines 17-39): first sample line on which a parser
returns a truthy dict decides the format, Apache tried before Nginx;
`None` when no line decides. -/
def detectLogFormat : List Str → PyResult (Option LogFormat)
  | [] => PyResult.ok none
  | l :: ls =>
    match apacheParseLine l with
    | .err m => .err m
    | .ok (some _) => .ok (some .apache)
    | .ok none =>
      match nginxParseLine l with
      | .err m => .err m
      | .ok (some _) => .ok (some .nginx)
      | .ok none => detectLogFormat ls

/-- Fuel-driven chunking (`chunk_file`, lines 42-67): groups of
`chunkSize` lines in order, last group possibly short.  The fuel is the
list length, always sufficient for a positive chunk size. -/
def chunksOfGo (n : Nat) : Nat → List α → List (List α)
  | _, [] => []
  | 0, xs => [xs]
  | fuel+1, x :: xs => ((x :: xs).take n) :: chunksOfGo n fuel ((x :: xs).drop n)

/-- Split a list into chunks of `n` (the Python code requires `n > 0`;
`(i+1) % chunk_size` raises `ZeroDivisionError` otherwise). -/
def chunksOf (n : Nat) (xs : List α) : List (List α) := chunksOfGo n xs.length xs

/-- `chunk_file`: every line is `strip()`ped as read. -/
def chunkFileLines (file : List Str) (chunkSize : Nat) : List (List Str) :=
  chunksOf chunkSize (file.map stripStr)

/-- Dispatch to the parser of the detected format (`process_chunk` line 83:
`parse_apache_line if log_format == 'apache' else parse_nginx_line`). -/
def parseLineFor (fmt : LogFormat) (line : Str) : PyResult (Option LogEntry) :=
  match fmt with
  | .apache => apacheParseLine line
  | .nginx => nginxParseLine line

/-- `process_chunk` (lines 71-91): keep entries that parsed, have a truthy
(nonempty) user agent, and pass `is_llm_crawler`; an uncaught parser
exception aborts the chunk. -/
def processChunk (fmt : LogFormat) : List Str → PyResult (List LogEntry)
  | [] => PyResult.ok []
  | l :: ls =>
    match parseLineFor fmt l with
    | .err m => .err m
    | .ok p =>
      match processChunk fmt ls with
      | .err m => .err m
      | .ok rest =>
        match p with
        | some e =>
          if !e.userAgent.isEmpty && is_llm_crawler e.userAgent then
            .ok (e :: rest)
          else .ok rest
        | none => .ok rest

/-- `pool.map(process_fn, chunks)`: order-preserving map over chunks; a
worker exception aborts the whole job. -/
def processChunksAll (fmt : LogFormat) : List (List Str) → PyResult (List (List LogEntry))
  | [] => PyResult.ok []
  | c :: cs =>
    match processChunk fmt c with
    | .err m => .err m
    | .ok r =>
      match processChunksAll fmt cs with
      | .err m => .err m
      | .ok rs => .ok (r :: rs)

/-- The `match_percentage` formula of `LogProcessor.process` (line 171):
`matches/total×100` guarded by `total > 0`. -/
def statsMatchPercentage (m total : Nat) : Rat :=
  if 0 < total then (m * 100 : Rat) / (total : Rat) else 0

/-- The statistics dict returned by `LogProcessor.process`. -/
structure ProcStats where
  totalLines : Nat
  llmMatches : Nat
  matchPercentage : Rat
  processingTimeSeconds : Rat
  linesPerSecond : Rat
deriving Repr, DecidableEq

/-- The message of the `ValueError` raised when detection fails
(line 150). -/
def couldNotDetectMsg (filePath : Str) : Str :=
  str ("Could not determine log format for ") ++ filePath

/-- `LogProcessor.process` (lines 136-174): detect on the first 100
(stripped) lines, abort with a `ValueError` if detection fails, chunk the
whole file, process all chunks, concatenate, and compute the statistics.
`elapsed` stands for the measured wall-clock duration. -/
def logProcessorProcess (file : List Str) (filePath : Str) (chunkSize : Nat)
    (elapsed : Rat) : PyResult (List LogEntry × ProcStats) :=
  match detectLogFormat ((file.take 100).map stripStr) with
  | .err m => .err m
  | .ok none => .err (couldNotDetectMsg filePath)
  | .ok (some fmt) =>
    let chunks := chunkFileLines file chunkSize
    let total := (chunks.map List.length).sum
    match processChunksAll fmt chunks with
    | .err m => .err m
    | .ok results =>
      let flat := results.flatten
      .ok (flat,
        { totalLines := total,
          llmMatches := flat.length,
          matchPercentage := statsMatchPercentage flat.length total,
          processingTimeSeconds := elapsed,
          linesPerSecond := if 0 < elapsed then (total : Rat) / elapsed else 0 })

/-!
`backend/processor/log_task.py` — task status
-/

/-- Terminal/intermediate statuses written into `processing_results`. -/
inductive TaskStatus where
  | processingComplete
  | complete
  | dbInitFailed
  | error
deriving Repr, DecidableEq

/-- The observable outcome of one `process_log_file` run. -/
structure TaskOutcome where
  status : TaskStatus
  errorText : Option Str
deriving Repr, DecidableEq

/-- `process_log_file` (lines 18-122), projected onto its status machine:
an exception from `LogProcessor.process` is caught and recorded as a
terminal `error` with the exception text; otherwise the record reaches
`processing_complete`, and — when persistence is requested and produced
entries exist — `db_init_failed` if the storage collaborator cannot
initialise, else `complete`.  (File-size probing and temp-file cleanup
only append non-fatal issues and are not modelled.) -/
def processLogFile (file : List Str) (filePath : Str) (chunkSize : Nat)
    (elapsed : Rat) (saveToDb : Bool) (initOk : Bool) : TaskOutcome :=
  match logProcessorProcess file filePath chunkSize elapsed with
  | .err m => { status := .error, errorText := some m }
  | .ok (results, _) =>
    if saveToDb && !results.isEmpty then
      if !initOk then { status := .dbInitFailed, errorText := none }
      else { status := .complete, errorText := none }
    else { status := .processingComplete, errorText := none }

/-- Detection returns `None` when every sample line parses to `None` under
both parsers. -/
theorem detectLogFormat_none {sample : List Str}
    (h : ∀ l ∈ sample, apacheParseLine l = PyResult.ok none ∧
         nginxParseLine l = PyResult.ok none) :
    detectLogFormat sample = PyResult.ok none := by
  induction sample with
  | nil => rfl
  | cons l ls ih =>
    have hl := h l (List.mem_cons_self l ls)
    unfold detectLogFormat
    rw [hl.1, hl.2]
    exact ih (fun x hx => h x (List.mem_cons_of_mem l hx))

theorem parseLineFor_crawler {fmt : LogFormat} {line : Str} {e : LogEntry}
    (hp : parseLineFor fmt line = PyResult.ok (some e)) :
    e.crawlerName = extract_crawler_name e.userAgent := by
  cases fmt with
  | apache => exact apacheParseLine_crawler hp
  | nginx => exact nginxParseLine_crawler hp

theorem processChunk_cons_err {fmt : LogFormat} {l : Str} {ls : List Str}
    {m : Str} (hp : parseLineFor fmt l = PyResult.err m) :
    processChunk fmt (l :: ls) = PyResult.err m := by
  unfold processChunk
  rw [hp]

theorem processChunk_cons_tailErr {fmt : LogFormat} {l : Str} {ls : List Str}
    {p : Option LogEntry} {m : Str} (hp : parseLineFor fmt l = PyResult.ok p)
    (hr : processChunk fmt ls = PyResult.err m) :
    processChunk fmt (l :: ls) = PyResult.err m := by
  unfold processChunk
  rw [hp, hr]

theorem processChunk_cons_nomatch {fmt : LogFormat} {l : Str} {ls : List Str}
    {rest : List LogEntry} (hp : parseLineFor fmt l = PyResult.ok none)
    (hr : processChunk fmt ls = PyResult.ok rest) :
    processChunk fmt (l :: ls) = PyResult.ok rest := by
  unfold processChunk
  rw [hp, hr]

theorem processChunk_cons_keep {fmt : LogFormat} {l : Str} {ls : List Str}
    {ent : LogEntry} {rest : List LogEntry}
    (hp : parseLineFor fmt l = PyResult.ok (some ent))
    (hr : processChunk fmt ls = PyResult.ok rest)
    (hc : (!ent.userAgent.isEmpty && is_llm_crawler ent.userAgent) = true) :
    processChunk fmt (l :: ls) = PyResult.ok (ent :: rest) := by
  unfold processChunk
  rw [hp, hr]
  simp [hc]

theorem processChunk_cons_skip {fmt : LogFormat} {l : Str} {ls : List Str}
    {ent : LogEntry} {rest : List LogEntry}
    (hp : parseLineFor fmt l = PyResult.ok (some ent))
    (hr : processChunk fmt ls = PyResult.ok rest)
    (hc : (!ent.userAgent.isEmpty && is_llm_crawler ent.userAgent) = false) :
    processChunk fmt (l :: ls) = PyResult.ok rest := by
  unfold processChunk
  rw [hp, hr]
  simp [hc]

/-- Every entry a chunk worker keeps passed the `is_llm_crawler` filter on
its (nonempty) user agent, and carries the classifier result of that same
user agent as its crawler name. -/
theorem processChunk_kept (fmt : LogFormat) :
    ∀ (chunk : List Str) (entries : List LogEntry),
      processChunk fmt chunk = PyResult.ok entries →
      ∀ e ∈ entries, is_llm_crawler e.userAgent = true ∧
        e.crawlerName = extract_crawler_name e.userAgent := by
  intro chunk
  induction chunk with
  | nil =>
    intro entries h e he
    cases h
    exact absurd he (List.not_mem_nil e)
  | cons l ls ih =>
    intro entries h e he
    cases hp : parseLineFor fmt l with
    | err m => rw [processChunk_cons_err hp] at h; exact PyResult.noConfusion h
    | ok p =>
      cases hr : processChunk fmt ls with
      | err m =>
        rw [processChunk_cons_tailErr hp hr] at h
        exact PyResult.noConfusion h
      | ok rest =>
        cases p with
        | none =>
          rw [processChunk_cons_nomatch hp hr] at h
          cases h
          exact ih _ hr e he
        | some ent =>
          cases hcond : (!ent.userAgent.isEmpty && is_llm_crawler ent.userAgent) with
          | true =>
            rw [processChunk_cons_keep hp hr hcond] at h
            cases h
            cases List.mem_cons.mp he with
            | inl hee =>
              subst hee
              refine ⟨((Bool.and_eq_true _ _).mp hcond).2, ?_⟩
              exact parseLineFor_crawler hp
            | inr hee => exact ih rest hr e hee
          | false =>
            rw [processChunk_cons_skip hp hr hcond] at h
            cases h
            exact ih _ hr e he

/-- C3 amended: the filtering decision and the naming decision actually
wired into the pipeline always agree — `is_llm_crawler ua` is true exactly
when `extract_crawler_name ua` returns a name — and consequently every
entry kept by a chunk worker has a non-null crawler name: no line is kept
as crawler traffic with an unknown name.  (The generic bot/AI-token
disagreement case exists only in the unused `CrawlerDatabase.is_crawler`
method.) -/
theorem claim3_amended :
    (∀ ua : Str, is_llm_crawler ua = (extract_crawler_name ua).isSome) ∧
    (∀ (fmt : LogFormat) (chunk : List Str) (entries : List LogEntry),
      processChunk fmt chunk = PyResult.ok entries →
      ∀ e ∈ entries, (e.crawlerName).isSome = true) := by
  refine ⟨llm_filter_naming_agree, ?_⟩
  intro fmt chunk entries h e he
  obtain ⟨hflt, hname⟩ := processChunk_kept fmt chunk entries h e he
  rw [hname, ← llm_filter_naming_agree, hflt]

/-- C3 witness: the amended statement at a concrete kept entry. -/
theorem claim3_witness :
    processChunk LogFormat.apache [wLineApache] = PyResult.ok [wEntryApache] ∧
    (wEntryApache.crawlerName).isSome = true :=
  ⟨rfl, claim3_amended.2 LogFormat.apache [wLineApache] [wEntryApache] rfl
    wEntryApache (List.mem_singleton.mpr rfl)⟩

/-- C9: when no line among the first 100 (the sampled prefix) parses under
either format, `LogProcessor.process` raises the descriptive
`ValueError` and `process_log_file` records a terminal `error` status
carrying that message.  The statement holds for *every* file extending
such a prefix, every chunk size and every environment — nothing beyond
the sample is consulted, so the remainder of the file is neither chunked
nor parsed. -/
theorem claim9_detection_failure_is_fatal (file : List Str) (filePath : Str)
    (chunkSize : Nat) (elapsed : Rat) (saveToDb initOk : Bool)
    (h : ∀ l ∈ file.take 100, apacheParseLine (stripStr l) = PyResult.ok none ∧
         nginxParseLine (stripStr l) = PyResult.ok none) :
    logProcessorProcess file filePath chunkSize elapsed =
      PyResult.err (couldNotDetectMsg filePath) ∧
    processLogFile file filePath chunkSize elapsed saveToDb initOk =
      { status := TaskStatus.error,
        errorText := some (couldNotDetectMsg filePath) } := by
  have hd : detectLogFormat ((file.take 100).map stripStr) = PyResult.ok none := by
    refine detectLogFormat_none ?_
    intro l hl
    rcases List.mem_map.mp hl with ⟨x, hx, rfl⟩
    exact h x hx
  constructor
  · unfold logProcessorProcess
    rw [hd]
  · unfold processLogFile logProcessorProcess
    rw [hd]

/-- C9 witness: a one-line file of unparsable text. -/
theorem claim9_witness :
    logProcessorProcess [str ("hello world")] (str ("upload.log")) 10000 1 =
      PyResult.err (couldNotDetectMsg (str ("upload.log"))) ∧
    processLogFile [str ("hello world")] (str ("upload.log")) 10000 1 true true =
      { status := TaskStatus.error,
        errorText := some (couldNotDetectMsg (str ("upload.log"))) } :=
  claim9_detection_failure_is_fatal _ _ _ _ _ _ (by
    intro l hl
    simp only [List.take, List.mem_singleton] at hl
    subst hl
    exact ⟨rfl, rfl⟩)

/-- C4 counterexample: processing an empty file does not yield statistics
at all — format detection finds no sample lines, returns `None`, and
`process` raises the format `ValueError` instead of returning
`total_lines = 0`. -/
theorem claim4_counterexample :
    logProcessorProcess ([] : List Str) (str ("empty.log")) 10000 1 =
      PyResult.err (couldNotDetectMsg (str ("empty.log"))) := rfl

/-- C4 amended: an empty file never reaches the statistics computation
(and in particular no division occurs): `process` raises the
format-detection `ValueError`, and the job records a terminal `error`.
The `match_percentage` formula itself does guard `total = 0` with `0`,
exactly as the claim says, but for a zero-line file it is unreachable. -/
theorem claim4_amended (filePath : Str) (chunkSize : Nat) (elapsed : Rat)
    (saveToDb initOk : Bool) :
    logProcessorProcess ([] : List Str) filePath chunkSize elapsed =
      PyResult.err (couldNotDetectMsg filePath) ∧
    processLogFile ([] : List Str) filePath chunkSize elapsed saveToDb initOk =
      { status := TaskStatus.error,
        errorText := some (couldNotDetectMsg filePath) } ∧
    (∀ m : Nat, statsMatchPercentage m 0 = 0) :=
  ⟨rfl, rfl, fun _ => rfl⟩

/-!
`backend/database/writer.py` — `LogWriter.insert_logs`

The storage collaborator is abstracted by a `WriterEnv`: whether the bulk
path (connection + `executemany`) succeeds for a batch, whether the
one-by-one fallback can obtain a connection, and whether an individual
row insert succeeds.  With this functional environment the code's second
fallback attempt (the `except` of `_insert_batch` re-running
`_insert_logs_one_by_one` after the inner run raised on connection
failure) collapses to a single attempt with the same outcome.  Rows are
opaque (`log_file_id` tagging does not affect the counters). -/

/-- Success/failure behaviour of the storage collaborator. -/
structure WriterEnv (α : Type) where
  bulkOk : List α → Bool
  fallbackConnOk : List α → Bool
  rowOk : α → Bool

/-- The `stats` dict of `LogWriter`. -/
structure WriteStats where
  rowsAttempted : Nat
  rowsInserted : Nat
  errors : Nat
deriving Repr, DecidableEq

/-- `LogWriter._insert_batch` (lines 90-109) composed with
`_insert_logs` / `_insert_logs_one_by_one` (lines 111-209): an empty batch
inserts 0; a successful bulk path inserts the whole batch; on bulk failure
the fallback inserts exactly the rows that individually succeed (failed
rows are only logged); if even the fallback cannot connect, the exception
escapes to `insert_logs` (`none`). -/
def insertBatchResult (env : WriterEnv α) (b : List α) : Option Nat :=
  if b.isEmpty then some 0
  else if env.bulkOk b then some b.length
  else if env.fallbackConnOk b then some ((b.filter env.rowOk).length)
  else none

/-- The batch loop of `insert_logs` (lines 79-86): accumulate
`rows_inserted` from returned counts, and `errors += len(batch)` when a
batch raises. -/
def insertLogsRun (env : WriterEnv α) : List (List α) → Nat × Nat
  | [] => (0, 0)
  | b :: bs =>
    match insertBatchResult env b with
    | some n => (n + (insertLogsRun env bs).1, (insertLogsRun env bs).2)
    | none => ((insertLogsRun env bs).1, b.length + (insertLogsRun env bs).2)

/-- `LogWriter.insert_logs` (lines 55-88): `rows_attempted = len(logs)`,
then the batch loop over `chunksOf batchSize logs`. -/
def insert_logs (env : WriterEnv α) (logs : List α) (batchSize : Nat) : WriteStats :=
  { rowsAttempted := logs.length,
    rowsInserted := (insertLogsRun env (chunksOf batchSize logs)).1,
    errors := (insertLogsRun env (chunksOf batchSize logs)).2 }

/-- The rows silently skipped by the one-by-one fallback: for each batch
that reached the fallback, the rows whose individual insert failed (they
are neither counted in `rows_inserted` nor in `errors`). -/
def droppedRows (env : WriterEnv α) (bs : List (List α)) : Nat :=
  (bs.map (fun b =>
    if !b.isEmpty && !env.bulkOk b && env.fallbackConnOk b then
      (b.filter (fun r => !env.rowOk r)).length
    else 0)).sum

theorem length_filter_add_length_filter_not (p : α → Bool) (l : List α) :
    (l.filter p).length + (l.filter (fun a => !p a)).length = l.length := by
  induction l with
  | nil => rfl
  | cons a t ih =>
    cases h : p a <;> simp [List.filter, h, ← ih] <;> omega

theorem insertLogsRun_accounting (env : WriterEnv α) (bs : List (List α)) :
    (insertLogsRun env bs).1 + (insertLogsRun env bs).2 + droppedRows env bs =
      (bs.map List.length).sum := by
  induction bs with
  | nil => rfl
  | cons b t ih =>
    have hd : droppedRows env (b :: t) =
        (if (!b.isEmpty && !env.bulkOk b && env.fallbackConnOk b) = true then
          (b.filter (fun r => !env.rowOk r)).length else 0) + droppedRows env t := by
      simp [droppedRows]
    have hsum : ((b :: t).map List.length).sum =
        b.length + (t.map List.length).sum := by simp
    cases he : b.isEmpty with
    | true =>
      obtain rfl : b = [] := List.isEmpty_iff.mp he
      have hr : insertLogsRun env ([] :: t) =
          (0 + (insertLogsRun env t).1, (insertLogsRun env t).2) := by
        simp [insertLogsRun, insertBatchResult]
      rw [hr, hd, hsum]
      simp only [List.isEmpty_nil, Bool.not_true, Bool.false_and]
      simp only [Bool.false_eq_true, if_false, List.length_nil]
      omega
    | false =>
      cases hb : env.bulkOk b with
      | true =>
        have hr : insertLogsRun env (b :: t) =
            (b.length + (insertLogsRun env t).1, (insertLogsRun env t).2) := by
          simp [insertLogsRun, insertBatchResult, he, hb]
        rw [hr, hd, hsum]
        simp only [he, hb, Bool.not_true, Bool.not_false, Bool.true_and,
          Bool.false_and, Bool.and_false]
        simp only [Bool.false_eq_true, if_false]
        omega
      | false =>
        cases hf : env.fallbackConnOk b with
        | true =>
          have hr : insertLogsRun env (b :: t) =
              ((b.filter env.rowOk).length + (insertLogsRun env t).1,
               (insertLogsRun env t).2) := by
            simp [insertLogsRun, insertBatchResult, he, hb, hf]
          have hsplit := length_filter_add_length_filter_not env.rowOk b
          rw [hr, hd, hsum]
          simp only [he, hb, hf, Bool.not_false, Bool.true_and, if_true]
          omega
        | false =>
          have hr : insertLogsRun env (b :: t) =
              ((insertLogsRun env t).1, b.length + (insertLogsRun env t).2) := by
            simp [insertLogsRun, insertBatchResult, he, hb, hf]
          rw [hr, hd, hsum]
          simp only [he, hb, hf, Bool.not_false, Bool.true_and, Bool.and_false]
          simp only [Bool.false_eq_true, if_false]
          omega

theorem chunksOfGo_length_sum (n : Nat) (hn : 0 < n) :
    ∀ fuel (xs : List α), xs.length ≤ fuel →
      ((chunksOfGo n fuel xs).map List.length).sum = xs.length := by
  intro fuel
  induction fuel with
  | zero =>
    intro xs hx
    cases xs with
    | nil => rfl
    | cons a t => simp at hx
  | succ f ih =>
    intro xs hx
    cases xs with
    | nil => rfl
    | cons a t =>
      unfold chunksOfGo
      have hdrop : ((a :: t).drop n).length ≤ f := by
        simp only [List.length_drop, List.length_cons]
        simp only [List.length_cons] at hx
        omega
      simp only [List.map_cons, List.sum_cons, ih _ hdrop, List.length_take,
        List.length_drop]
      simp only [List.length_cons]
      omega

theorem chunksOf_length_sum (n : Nat) (hn : 0 < n) (xs : List α) :
    ((chunksOf n xs).map List.length).sum = xs.length :=
  chunksOfGo_length_sum n hn xs.length xs (Nat.le_refl _)

/-- C1 counterexample: one row, bulk insert failing, the row failing
individually inside the one-by-one fallback — it is counted neither in
`rows_inserted` nor in `errors`, so `attempted ≠ inserted + errors`. -/
def cexWriterEnv : WriterEnv Nat :=
  { bulkOk := fun _ => false, fallbackConnOk := fun _ => true,
    rowOk := fun _ => false }

/-- C1 counterexample: the accounting identity claimed
(`attempted = inserted + errors`) fails on a concrete run where the
fallback drops a row. -/
theorem claim1_counterexample :
    ¬ ((insert_logs cexWriterEnv [0] 1000).rowsAttempted =
       (insert_logs cexWriterEnv [0] 1000).rowsInserted +
       (insert_logs cexWriterEnv [0] 1000).errors) := by
  decide

/-- C1 amended: for every environment, row list and positive batch size,
each attempted row is counted in exactly one of `rows_inserted`, `errors`
(whole-batch failure), or the silently skipped fallback failures:
`inserted + errors + dropped = attempted` (hence
`inserted + errors ≤ attempted`, with equality exactly when no row fails
individually inside the one-by-one fallback). -/
theorem claim1_amended (env : WriterEnv α) (logs : List α) (batchSize : Nat)
    (h : 0 < batchSize) :
    (insert_logs env logs batchSize).rowsInserted +
      (insert_logs env logs batchSize).errors +
      droppedRows env (chunksOf batchSize logs) =
      (insert_logs env logs batchSize).rowsAttempted := by
  unfold insert_logs
  simp only
  rw [insertLogsRun_accounting, chunksOf_length_sum batchSize h]

/-- C1 witness: the amended accounting at the concrete failing run (1
attempted = 0 inserted + 0 errors + 1 dropped). -/
theorem claim1_witness :
    (insert_logs cexWriterEnv [0] 1000).rowsInserted +
      (insert_logs cexWriterEnv [0] 1000).errors +
      droppedRows cexWriterEnv (chunksOf 1000 [0]) =
      (insert_logs cexWriterEnv [0] 1000).rowsAttempted :=
  claim1_amended cexWriterEnv [0] 1000 (by decide)

/-!
The `log_files` table: `LogWriter.insert_log_file` and
`set_active_log_file`

The table is modelled as an insertion-ordered list of records.
-/

/-- One row of `log_files` (`in_use` is the active flag). -/
structure LogFileRec where
  fileId : Str
  fileName : Str
  inUse : Bool
deriving Repr, DecidableEq

/-- Modelled from the spec: the `log_files` schema itself (`schema.sql`)
is not part of the source tree; §3 describes LogFileRecord as the
persistence-side record of an uploaded file keyed by its identifier, and
every access path (`set_active_log_file`, `delete_log_file_data`) keys on
`log_file_id`, so the identifier is modelled as the table key — which is
what gives the writer's `INSERT OR IGNORE` its meaning: an insert whose
`log_file_id` is already present is ignored. -/
def logFileKeyPresent (tbl : List LogFileRec) (fid : Str) : Bool :=
  tbl.any (fun r => r.fileId == fid)

/-- `LogWriter.insert_log_file` (lines 25-53): with `set_as_active` it
first runs `UPDATE log_files SET in_use = 0`, then
`INSERT OR IGNORE ... VALUES (id, name, active?1:0)`. -/
def insert_log_file (tbl : List LogFileRec) (fid fname : Str)
    (setAsActive : Bool) : List LogFileRec :=
  let tbl1 := if setAsActive then tbl.map (fun r => { r with inUse := false })
              else tbl
  if logFileKeyPresent tbl1 fid then tbl1
  else tbl1 ++ [{ fileId := fid, fileName := fname, inUse := setAsActive }]

/-- Result of `set_active_log_file`. -/
inductive SetActiveResult where
  | success
  | notFound
deriving Repr, DecidableEq

/-- `set_active_log_file` (`database/__init__.py`, lines 315-358): if no
record has the id, return `not_found`; else set `in_use = 0` on every
record, then `in_use = 1` on every record with the id. -/
def set_active_log_file (tbl : List LogFileRec) (fid : Str) :
    List LogFileRec × SetActiveResult :=
  if !logFileKeyPresent tbl fid then (tbl, .notFound)
  else ((tbl.map (fun r => { r with inUse := false })).map
          (fun r => if r.fileId == fid then { r with inUse := true } else r),
        .success)

/-- The ids of the records currently flagged active. -/
def activeIds (tbl : List LogFileRec) : List Str :=
  (tbl.filter (fun r => r.inUse)).map (fun r => r.fileId)

/-- C5 counterexample: when a record with id `x` already exists, inserting
`x` again with `makeActive = true` clears every active flag and then the
`INSERT OR IGNORE` is ignored — zero records are left active, not exactly
one. -/
theorem claim5_counterexample :
    activeIds (insert_log_file
      [{ fileId := str ("x"), fileName := str ("a.log"), inUse := true }]
      (str ("x")) (str ("b.log")) true) = [] := by rfl

theorem activeIds_deactivated_nil (tbl : List LogFileRec) :
    activeIds (tbl.map (fun r => { r with inUse := false })) = [] := by
  induction tbl with
  | nil => rfl
  | cons r t ih => simp [activeIds, List.filter] at ih ⊢

theorem activeIds_append (t1 t2 : List LogFileRec) :
    activeIds (t1 ++ t2) = activeIds t1 ++ activeIds t2 := by
  simp [activeIds]

theorem activeIds_setActive_core (fid : Str) :
    ∀ tbl : List LogFileRec,
      (∀ r ∈ tbl, r.fileId ≠ fid) →
      activeIds ((tbl.map (fun r => { r with inUse := false })).map
        (fun r => if r.fileId == fid then { r with inUse := true } else r)) = [] := by
  intro tbl
  induction tbl with
  | nil => intro _; rfl
  | cons r t ih =>
    intro h
    have hr : r.fileId ≠ fid := h r (List.mem_cons_self r t)
    have hr2 : (r.fileId == fid) = false := beq_eq_false_iff_ne.mpr hr
    simp only [List.map_cons]
    simp only [hr2, Bool.false_eq_true, if_false]
    simpa [activeIds, List.filter] using
      ih (fun x hx => h x (List.mem_cons_of_mem r hx))

theorem activeIds_setActive (fid : Str) :
    ∀ tbl : List LogFileRec,
      (tbl.map (fun r => r.fileId)).Nodup →
      logFileKeyPresent tbl fid = true →
      activeIds ((tbl.map (fun r => { r with inUse := false })).map
        (fun r => if r.fileId == fid then { r with inUse := true } else r)) =
        [fid] := by
  intro tbl
  induction tbl with
  | nil => intro _ h; exact absurd h (by simp [logFileKeyPresent])
  | cons r t ih =>
    intro hnd hpres
    have hnd2 : (∀ x ∈ t, ¬ x.fileId = r.fileId) ∧
        (t.map (fun s => s.fileId)).Nodup := by simpa using hnd
    cases hr : r.fileId == fid with
    | true =>
      have hre : r.fileId = fid := eq_of_beq hr
      have hnot : ∀ x ∈ t, x.fileId ≠ fid := by
        intro x hx hxe
        exact hnd2.1 x hx (by rw [hxe, hre])
      simp only [List.map_cons, hr, if_true]
      rw [show activeIds _ = _ from rfl]
      simpa [activeIds, List.filter, hre] using activeIds_setActive_core fid t hnot
    | false =>
      have hpres2 : logFileKeyPresent t fid = true := by
        simp only [logFileKeyPresent, List.any_cons, hr, Bool.false_or] at hpres
        exact hpres
      simp only [List.map_cons, hr, Bool.false_eq_true, if_false]
      simpa [activeIds, List.filter] using ih hnd2.2 hpres2

/-- C5 amended: exclusive activation holds on the paths that can
establish it — inserting a *new* file id with `makeActive = true` leaves
exactly record `X` active, and `setActiveLogFile(X)` for an existing `X`
(ids being unique, as keyed) leaves exactly the records with id `X`
active, hence exactly one under key uniqueness.  When `X` already exists,
`insert_log_file` with `makeActive = true` instead leaves *zero* active
records (the insert is ignored after the global deactivation). -/
theorem claim5_amended (tbl : List LogFileRec) (fid fname : Str) :
    ((∀ r ∈ tbl, r.fileId ≠ fid) →
       activeIds (insert_log_file tbl fid fname true) = [fid]) ∧
    ((tbl.map (fun r => r.fileId)).Nodup →
       logFileKeyPresent tbl fid = true →
       activeIds (set_active_log_file tbl fid).1 = [fid]) := by
  constructor
  · intro h
    have hkey : logFileKeyPresent (tbl.map (fun r => { r with inUse := false })) fid = false := by
      simp only [logFileKeyPresent, List.any_map, List.any_eq_false]
      intro r hr
      simpa [Function.comp] using beq_eq_false_iff_ne.mpr (h r hr)
    unfold insert_log_file
    simp only [if_true, hkey, Bool.false_eq_true, if_false]
    rw [activeIds_append, activeIds_deactivated_nil]
    rfl
  · intro hnd hpres
    unfold set_active_log_file
    simp only [hpres, Bool.not_true, Bool.false_eq_true, if_false]
    exact activeIds_setActive fid tbl hnd hpres

/-- C5 witness: the amended statement at a concrete two-record table. -/
theorem claim5_witness :
    activeIds (insert_log_file
      [{ fileId := str ("a"), fileName := str ("a.log"), inUse := true }]
      (str ("b")) (str ("b.log")) true) = [str ("b")] ∧
    activeIds (set_active_log_file
      [{ fileId := str ("a"), fileName := str ("a.log"), inUse := true },
       { fileId := str ("b"), fileName := str ("b.log"), inUse := false }]
      (str ("b"))).1 = [str ("b")] :=
  ⟨(claim5_amended _ _ (str ("b.log"))).1 (by decide),
   (claim5_amended _ (str ("b")) (str (""))).2 (by decide) (by decide)⟩

end Crawlytics
